import Mathlib

/-!
Verification development for the slime repository's DAPO math-reward pipeline
(examples/DAPO/parser.py, examples/DAPO/hf_math_verify.py) and the
search-r1 retrieval wrapper (examples/search-r1/local_search_server.py).

Python strings are modelled as Lean List Char (Python str is a sequence of
code points).  Python library primitives (str.replace, str.split, str.strip,
the concrete regular expressions used by the source, ...) are hand-embedded
as executable fuel-based scanners so that every definition reduces in the
kernel.  The external libraries math_verify / sympy / word2number are treated
as black boxes, following the specification.
-/

namespace Slime

/-- Whitespace characters recognised by Python str.strip and the regex class \s
(ASCII part). -/
def pyIsSpace (c : Char) : Bool :=
  c = ' ' || c = '\t' || c = '\n' || c = '\r' || c = '\x0b' || c = '\x0c'

/-- ASCII decimal digit, models the regex class \d on the inputs at hand. -/
def pyIsDigit (c : Char) : Bool :=
  c.isDigit

/-- Word character, models the regex class \w (ASCII model: letters, digits,
underscore). -/
def pyIsWordChar (c : Char) : Bool :=
  c.isAlphanum || c = '_'

/-- Drop characters satisfying p from both ends (models str.strip variants). -/
def pyStripP (p : Char → Bool) (s : List Char) : List Char :=
  ((s.dropWhile p).reverse.dropWhile p).reverse

/-- Python str.strip() with no argument: strip whitespace from both ends. -/
def pyStrip (s : List Char) : List Char :=
  pyStripP pyIsSpace s

/-- Python str.strip(chars): strip any of the given characters from both ends. -/
def pyStripChars (cs : List Char) (s : List Char) : List Char :=
  pyStripP (fun c => cs.contains c) s

/-- Python str.lstrip(chars). -/
def pyLStripChars (cs : List Char) (s : List Char) : List Char :=
  s.dropWhile (fun c => cs.contains c)

/-- Python str.rstrip(chars). -/
def pyRStripChars (cs : List Char) (s : List Char) : List Char :=
  (s.reverse.dropWhile (fun c => cs.contains c)).reverse

/-- Substring test: containsSub sub s is the Python expression sub in s. -/
def containsSub (sub : List Char) : List Char → Bool
  | [] => sub.isEmpty
  | c :: cs => sub.isPrefixOf (c :: cs) || containsSub sub cs

/-- Fuel-based worker for Python str.replace (left-to-right, non-overlapping,
old assumed nonempty as in every call site of the source). -/
def pyReplaceGo (old new : List Char) : Nat → List Char → List Char
  | _, [] => []
  | 0, s => s
  | fuel+1, c :: cs =>
    if old.isPrefixOf (c :: cs) then
      new ++ pyReplaceGo old new fuel (cs.drop (old.length - 1))
    else
      c :: pyReplaceGo old new fuel cs

/-- Python str.replace(old, new), replacing every occurrence. -/
def pyReplace (s old new : List Char) : List Char :=
  pyReplaceGo old new s.length s

/-- Fuel-based worker for Python str.split(sep) with nonempty sep. -/
def pySplitGo (sep : List Char) : Nat → List Char → List Char → List (List Char)
  | _, acc, [] => [acc.reverse]
  | 0, acc, s => [acc.reverse ++ s]
  | fuel+1, acc, c :: cs =>
    if sep.isPrefixOf (c :: cs) then
      acc.reverse :: pySplitGo sep fuel [] (cs.drop (sep.length - 1))
    else
      pySplitGo sep fuel (c :: acc) cs

/-- Python str.split(sep) for a nonempty separator. -/
def pySplit (s sep : List Char) : List (List Char) :=
  pySplitGo sep s.length [] s

/-- Python str.count(sub): number of non-overlapping occurrences. -/
def pyCountGo (sub : List Char) : Nat → List Char → Nat
  | _, [] => 0
  | 0, _ => 0
  | fuel+1, c :: cs =>
    if sub.isPrefixOf (c :: cs) then
      1 + pyCountGo sub fuel (cs.drop (sub.length - 1))
    else
      pyCountGo sub fuel cs

/-- Python str.count(sub) wrapper. -/
def pyCount (s sub : List Char) : Nat :=
  pyCountGo sub s.length s

/-- Suffix of s starting at the first occurrence of sub ([] if none). -/
def fromFirstSub (sub : List Char) : List Char → List Char
  | [] => []
  | c :: cs => if sub.isPrefixOf (c :: cs) then c :: cs else fromFirstSub sub cs

/-- Prefix of s strictly before the first occurrence of sub (s itself has the
occurrence removed semantics handled by callers). -/
def beforeFirstSub (sub : List Char) : List Char → List Char
  | [] => []
  | c :: cs => if sub.isPrefixOf (c :: cs) then [] else c :: beforeFirstSub sub cs

/-- Everything after the first occurrence of sub, that is s.split(sub, 1)[1]
when sub occurs in s. -/
def afterFirstSub (sub s : List Char) : List Char :=
  (fromFirstSub sub s).drop sub.length

/-- Python s.split(sub, 1)[0] : prefix before the first occurrence, or all of
s when sub does not occur. -/
def beforeFirstOrAll (sub s : List Char) : List Char :=
  if containsSub sub s then beforeFirstSub sub s else s

/-- Python s.split(sub)[-1] : suffix after the last occurrence of sub, or all
of s when sub does not occur. -/
def afterLastSub (sub s : List Char) : List Char :=
  (pySplit s sub).getLastD []

/-- Python s[-n:] (the last n characters, all of s when shorter). -/
def lastN (n : Nat) (s : List Char) : List Char :=
  s.drop (s.length - n)

/-- Character-wise uppercase, models Python str.upper on the ASCII inputs of
interest. -/
def pyUpper (s : List Char) : List Char :=
  s.map Char.toUpper

/-- Numeric value of a nonempty all-digit character list. -/
def digitsToNat (ds : List Char) : Option Nat :=
  if ds ≠ [] && ds.all Char.isDigit then
    some (ds.foldl (fun n c => n * 10 + (c.toNat - 48)) 0)
  else
    none

/-- Python int(str) (base 10): optional surrounding whitespace, optional sign,
then decimal digits; None models a raised ValueError. -/
def pyInt (s : List Char) : Option Int :=
  match pyStrip s with
  | '-' :: ds => (digitsToNat ds).map (fun n => -(n : Int))
  | '+' :: ds => (digitsToNat ds).map (fun n => (n : Int))
  | ds => (digitsToNat ds).map (fun n => (n : Int))

/-- Attempt to match a unit pattern against the front of s.  A pattern char
that is a dot matches any single character (that is the unescaped regex dot
occurring inside several UNIT_TEXTS entries); every other char is literal.
Returns the rest of s after the matched portion. -/
def matchUnit : List Char → List Char → Option (List Char)
  | [], rest => some rest
  | _ :: _, [] => none
  | p :: ps, c :: cs => if p = '.' || p = c then matchUnit ps cs else none

/-- Match the trailing group of the unit regex, a dollar anchor or one
non-word character; the anchor alternative is tried first.  Returns the
characters emitted by the group-2 backreference and the remaining input. -/
def matchUnitEnd : List Char → Option (List Char × List Char)
  | [] => some ([], [])
  | c :: cs => if pyIsWordChar c then none else some ([c], cs)

/-- Try the caret alternative of the unit regex at the start of the string. -/
def unitTryAtStart (u s : List Char) : Option (List Char × List Char) :=
  match matchUnit u s with
  | some rest => (matchUnitEnd rest).map (fun pr => (pr.1, pr.2))
  | none => none

/-- Try the non-word-boundary alternative of the unit regex at a position
whose character is c followed by cs. -/
def unitTryAfterNonWord (u : List Char) (c : Char) (cs : List Char) :
    Option (List Char × List Char) :=
  if pyIsWordChar c then none
  else
    match matchUnit u cs with
    | some rest => (matchUnitEnd rest).map (fun pr => (c :: pr.1, pr.2))
    | none => none

/-- Scanner for the substitution of the unit regex at positions past the
start of the string. -/
def unitSubGo (u : List Char) : Nat → List Char → List Char
  | _, [] => []
  | 0, s => s
  | fuel+1, c :: cs =>
    match unitTryAfterNonWord u c cs with
    | some (emit, rest) => emit ++ unitSubGo u fuel rest
    | none => c :: unitSubGo u fuel cs

/-- Embedding of re.sub for the source pattern built from a unit text u:
a caret-or-non-word group, then u (with its dots as wildcards), then a
dollar-or-non-word group, replaced by the two boundary groups. -/
def unitSub (u s : List Char) : List Char :=
  match unitTryAtStart u s with
  | some (emit, rest) => emit ++ unitSubGo u rest.length rest
  | none => unitSubGo u s.length s

/-- Scanner embedding re.sub for the pattern matching a literal backslash,
begin, {array}{, a lazy any-but-newline body and the closing brace, replaced
by the literal pmatrix opener (source line 225). -/
def subArrayBeginGo : Nat → List Char → List Char
  | _, [] => []
  | 0, s => s
  | fuel+1, c :: cs =>
    let opener := ('\\' :: ("begin".data)) ++ ('{' :: ("array".data)) ++ ('}' :: ['{'])
    if opener.isPrefixOf (c :: cs) then
      let rest := (c :: cs).drop opener.length
      let body := rest.takeWhile (fun d => d ≠ '}' && d ≠ '\n')
      let tail := rest.drop body.length
      match tail with
      | '}' :: rest2 =>
        (('\\' :: ("begin".data)) ++ ('{' :: ("pmatrix".data)) ++ ['}'])
          ++ subArrayBeginGo fuel rest2
      | _ => c :: subArrayBeginGo fuel cs
    else
      c :: subArrayBeginGo fuel cs

/-- Wrapper for the begin-array substitution. -/
def subArrayBegin (s : List Char) : List Char :=
  subArrayBeginGo s.length s

/-- Embedding of the anchored trailing-text regex of source line 239: the
match starts at the first backslash-text-brace occurrence, its lazy body may
not contain a newline, and the closing brace must be the final character;
on a match everything from the occurrence on is removed. -/
def removeTrailingTextCmd (s : List Char) : List Char :=
  let opener := '\\' :: ("text".data) ++ ['{']
  if containsSub opener s then
    let pre := beforeFirstSub opener s
    let rest := afterFirstSub opener s
    match rest.reverse with
    | '}' :: midrev =>
      if (midrev.reverse).all (fun d => d ≠ '\n') then pre else s
    | _ => s
  else s

/-- Scanner embedding re.sub for the unwrap-text pattern of source line 263:
each backslash-text block with a lazy brace-free body is replaced by its
body. -/
def unwrapTextGo : Nat → List Char → List Char
  | _, [] => []
  | 0, s => s
  | fuel+1, c :: cs =>
    let opener := '\\' :: ("text".data) ++ ['{']
    if opener.isPrefixOf (c :: cs) then
      let rest := (c :: cs).drop opener.length
      let body := rest.takeWhile (fun d => d ≠ '}' && d ≠ '\n')
      let tail := rest.drop body.length
      match tail with
      | '}' :: rest2 => body ++ unwrapTextGo fuel rest2
      | _ => c :: unwrapTextGo fuel cs
    else
      c :: unwrapTextGo fuel cs

/-- Wrapper for the unwrap-text substitution. -/
def unwrapText (s : List Char) : List Char :=
  unwrapTextGo s.length s

/-- Scanner embedding re.sub for the mbox pattern of source line 300, which
deletes each backslash-mbox block with a lazy brace-free body. -/
def removeMboxGo : Nat → List Char → List Char
  | _, [] => []
  | 0, s => s
  | fuel+1, c :: cs =>
    let opener := '\\' :: ("mbox".data) ++ ['{']
    if opener.isPrefixOf (c :: cs) then
      let rest := (c :: cs).drop opener.length
      let body := rest.takeWhile (fun d => d ≠ '}' && d ≠ '\n')
      let tail := rest.drop body.length
      match tail with
      | '}' :: rest2 => removeMboxGo fuel rest2
      | _ => c :: removeMboxGo fuel cs
    else
      c :: removeMboxGo fuel cs

/-- Wrapper for the mbox removal. -/
def removeMbox (s : List Char) : List Char :=
  removeMboxGo s.length s

/-- Scanner embedding re.sub for the first trailing-zero pattern of source
line 308: digits, a dot, a zero run, then one non-digit character kept by
the replacement; on a match the dot and zeros disappear. -/
def zeros1Go : Nat → List Char → List Char
  | _, [] => []
  | 0, s => s
  | fuel+1, c :: cs =>
    if pyIsDigit c then
      let run := (c :: cs).takeWhile pyIsDigit
      let rest := (c :: cs).dropWhile pyIsDigit
      match rest with
      | '.' :: r2 =>
        let r3 := r2.dropWhile (fun d => d = '0')
        match r3 with
        | d :: r4 =>
          if pyIsDigit d then run ++ '.' :: zeros1Go fuel r2
          else run ++ d :: zeros1Go fuel r4
        | [] => run ++ '.' :: zeros1Go fuel r2
      | _ => run ++ zeros1Go fuel rest
    else
      c :: zeros1Go fuel cs

/-- Wrapper for the first trailing-zero substitution. -/
def zeros1 (s : List Char) : List Char :=
  zeros1Go s.length s

/-- Scanner embedding re.sub for the second trailing-zero pattern of source
line 309: digits, a dot, then only zeros up to the end of the string are
replaced by the digits alone. -/
def zeros2Go : Nat → List Char → List Char
  | _, [] => []
  | 0, s => s
  | fuel+1, c :: cs =>
    if pyIsDigit c then
      let run := (c :: cs).takeWhile pyIsDigit
      let rest := (c :: cs).dropWhile pyIsDigit
      match rest with
      | '.' :: r2 =>
        if r2.all (fun d => d = '0') then run
        else run ++ '.' :: zeros2Go fuel r2
      | _ => run ++ zeros2Go fuel rest
    else
      c :: zeros2Go fuel cs

/-- Wrapper for the second trailing-zero substitution. -/
def zeros2 (s : List Char) : List Char :=
  zeros2Go s.length s

/-- Scanner embedding re.sub for the sqrt pattern of fix_sqrt (source line
65): a literal backslash-sqrt followed by a greedy word-character run gets
braces around the run. -/
def sqrtFixGo : Nat → List Char → List Char
  | _, [] => []
  | 0, s => s
  | fuel+1, c :: cs =>
    let opener := '\\' :: ("sqrt".data)
    if opener.isPrefixOf (c :: cs) then
      let rest := (c :: cs).drop opener.length
      let run := rest.takeWhile pyIsWordChar
      match run with
      | [] => c :: sqrtFixGo fuel cs
      | _ :: _ =>
        (opener ++ '{' :: run ++ ['}']) ++ sqrtFixGo fuel (rest.drop run.length)
    else
      c :: sqrtFixGo fuel cs

/-- Wrapper for the sqrt fix. -/
def sqrtFix (s : List Char) : List Char :=
  sqrtFixGo s.length s

/-- Scanner embedding re.sub for the newline pattern of source line 442:
a newline with the following whitespace run is deleted. -/
def newlineSubGo : Nat → List Char → List Char
  | _, [] => []
  | 0, s => s
  | fuel+1, c :: cs =>
    if c = '\n' then newlineSubGo fuel (cs.dropWhile pyIsSpace)
    else c :: newlineSubGo fuel cs

/-- Wrapper for the newline substitution. -/
def newlineSub (s : List Char) : List Char :=
  newlineSubGo s.length s

/-- Left word-boundary test of the choice letter pattern: start of string or
a preceding non-word character. -/
def leftBoundaryOK : Option Char → Bool
  | none => true
  | some p => !pyIsWordChar p

/-- Right word-boundary test of the choice letter pattern: end of string or
a following non-word character. -/
def rightBoundaryOK : List Char → Bool
  | [] => true
  | d :: _ => !pyIsWordChar d

/-- Embedding of re.findall for the standalone choice letter pattern
(word-boundary, one of A to E, word-boundary); prev carries the character
just before the scan position. -/
def findLettersGo : Option Char → List Char → List (List Char)
  | _, [] => []
  | prev, c :: cs =>
    if (c = 'A' || c = 'B' || c = 'C' || c = 'D' || c = 'E')
        && leftBoundaryOK prev && rightBoundaryOK cs then
      [c] :: findLettersGo (some c) cs
    else
      findLettersGo (some c) cs

/-- Wrapper for the choice-letter findall. -/
def findLetters (s : List Char) : List (List Char) :=
  findLettersGo none s

/-- Body matcher for the signed-decimal number pattern of source line 424
after the optional sign: a greedy digit run, an optional dot, then a
mandatory digit run, with the backtracking of the regex engine resolved. -/
def numBody (s : List Char) : Option (List Char × List Char) :=
  let ds := s.takeWhile pyIsDigit
  let r := s.dropWhile pyIsDigit
  match r with
  | '.' :: r2 =>
    let d2 := r2.takeWhile pyIsDigit
    if d2 ≠ [] then some (ds ++ '.' :: d2, r2.dropWhile pyIsDigit)
    else if ds ≠ [] then some (ds, r)
    else none
  | _ => if ds ≠ [] then some (ds, r) else none

/-- Number matcher including the optional leading minus sign. -/
def numTry (s : List Char) : Option (List Char × List Char) :=
  match s with
  | '-' :: rest =>
    match numBody rest with
    | some (m, r) => some ('-' :: m, r)
    | none => numBody s
  | _ => numBody s

/-- Scanner embedding re.findall for the signed-decimal number pattern. -/
def findNumbersGo : Nat → List Char → List (List Char)
  | _, [] => []
  | 0, _ => []
  | fuel+1, c :: cs =>
    match numTry (c :: cs) with
    | some (m, r) => m :: findNumbersGo fuel r
    | none => findNumbersGo fuel cs

/-- Wrapper for the number findall. -/
def findNumbers (s : List Char) : List (List Char) :=
  findNumbersGo s.length s

/-- Scanner embedding re.split on the two trigger phrases of
choice_answer_clean; the alternation tries the choice trigger first at each
position. -/
def splitTriggersGo : Nat → List Char → List Char → List (List Char)
  | _, acc, [] => [acc.reverse]
  | 0, acc, s => [acc.reverse ++ s]
  | fuel+1, acc, c :: cs =>
    let t1 := "choice is".data
    let t2 := "answer is".data
    if t1.isPrefixOf (c :: cs) then
      acc.reverse :: splitTriggersGo fuel [] ((c :: cs).drop t1.length)
    else if t2.isPrefixOf (c :: cs) then
      acc.reverse :: splitTriggersGo fuel [] ((c :: cs).drop t2.length)
    else
      splitTriggersGo fuel (c :: acc) cs

/-- Wrapper for the trigger split. -/
def splitTriggers (s : List Char) : List (List Char) :=
  splitTriggersGo s.length [] s

/-- Unit texts of parser.py lines 79 to 212, in source order. -/
def UNIT_TEXTS_BASE : List String :=
  ["east", "degree", "mph", "kmph", "ft", "m sqaure", " m east",
   "sq m", "deg", "mile", "q .", "monkey", "prime", "ratio",
   "profit of rs", "rd", "o", "gm", "p . m", "lb", "tile",
   "per", "dm", "lt", "gain", "ab", "way", "west",
   "a .", "b .", "c .", "d .", "e .", "f .", "g .", "h .",
   "t", "a", "h", "no change", "men", "soldier", "pie",
   "bc", "excess", "st", "inches", "noon", "percent", "by",
   "gal", "kmh", "c", "acre", "rise", "a . m", "th",
   "π r 2", "sq", "mark", "l", "toy", "coin", "sq . m",
   "gallon", "° f", "profit", "minw", "yr", "women", "feet",
   "am", "pm", "hr", "cu cm", "square", "v â € ™", "are",
   "rupee", "rounds", "cubic", "cc", "mtr", "s", "ohm",
   "number", "kmph", "day", "hour", "minute", "min", "second",
   "man", "woman", "sec", "cube", "mt", "sq inch", "mp",
   "∏ cm ³", "hectare", "more", "sec", "unit", "cu . m",
   "cm 2", "rs .", "rs", "kg", "g", "month", "km", "m",
   "cm", "mm", "apple", "liter", "loss", "yard", "pure",
   "year", "increase", "decrease", "d", "less", "Surface",
   "litre", "pi sq m", "s .", "metre", "meter", "inch"]

/-- Full unit vocabulary: the base texts followed by their pluralised forms,
matching the extend call of parser.py line 214. -/
def UNIT_TEXTS : List String :=
  UNIT_TEXTS_BASE ++ UNIT_TEXTS_BASE.map (fun t => t ++ "s")

/-- One step of the inner unit loop (parser.py lines 246 to 248): apply the
unit substitution for one vocabulary entry, keeping the result only when it
is nonempty. -/
def unitStep (cur : List Char) (u : String) : List Char :=
  let s2 := unitSub u.data cur
  if s2 ≠ [] then s2 else cur

/-- Fold of the unit step over a vocabulary fragment. -/
def unitsLoop (us : List String) (s : List Char) : List Char :=
  us.foldl unitStep s

/-- One pass of the inner unit loop (parser.py lines 245 to 248) over the
whole vocabulary. -/
def unitsPassOnce (s : List Char) : List Char :=
  unitsLoop UNIT_TEXTS s

/-- Python str.split() with no separator: maximal nonblank runs. -/
def pyWordsGo : Nat → List Char → List (List Char)
  | _, [] => []
  | 0, _ => []
  | fuel+1, c :: cs =>
    if pyIsSpace c then pyWordsGo fuel cs
    else
      ((c :: cs).takeWhile (fun d => !pyIsSpace d))
        :: pyWordsGo fuel ((c :: cs).dropWhile (fun d => !pyIsSpace d))

/-- Wrapper for whitespace word splitting. -/
def pyWords (s : List Char) : List (List Char) :=
  pyWordsGo s.length s

/-- English number-word vocabulary of the word2number dependency. -/
def w2nVocab : List (String × Nat) :=
  [("zero", 0), ("one", 1), ("two", 2), ("three", 3), ("four", 4),
   ("five", 5), ("six", 6), ("seven", 7), ("eight", 8), ("nine", 9),
   ("ten", 10), ("eleven", 11), ("twelve", 12), ("thirteen", 13),
   ("fourteen", 14), ("fifteen", 15), ("sixteen", 16), ("seventeen", 17),
   ("eighteen", 18), ("nineteen", 19), ("twenty", 20), ("thirty", 30),
   ("forty", 40), ("fifty", 50), ("sixty", 60), ("seventy", 70),
   ("eighty", 80), ("ninety", 90), ("hundred", 100), ("thousand", 1000),
   ("million", 1000000), ("billion", 1000000000), ("point", 0)]

/-- Modelled from the spec: the excluded word2number dependency exposes
wordToNumber(text) -> integer and raises on non-numeric-word input.  The
raise condition is modelled faithfully (the lowered, dash-split text is
neither an all-digit string nor contains any recognised number word); the
numeric value produced on success is a simplified accumulation, which no
claim depends on. -/
def wordToNum (s : List Char) : Option (List Char) :=
  let t := (pyReplace s ['-'] [' ']).map Char.toLower
  if t ≠ [] && t.all Char.isDigit then
    (digitsToNat t).map (fun n => (toString n).data)
  else
    let clean := (pyWords t).filterMap
      (fun w => (w2nVocab.lookup (String.mk w)))
    match clean with
    | [] => none
    | _ :: _ =>
      some ((toString (clean.foldl
        (fun acc v => if 100 ≤ v then acc * v else acc + v) 0)).data)

/-- Embedding of convert_word_number (parser.py lines 69 to 75): replace the
text by its digit form when word2number succeeds, otherwise keep it. -/
def convert_word_number (s : List Char) : List Char :=
  match wordToNum s with
  | some ds => ds
  | none => s

/-- Embedding of the enclosing-bracket step of strip_string (parser.py lines
279 to 290), with Python operator precedence rendered explicitly: each
disjunct tests isalnum() on the whole bracketed string. -/
def startsWithChar (ch : Char) : List Char → Bool
  | [] => false
  | c :: _ => c = ch

/-- Last-character test, models str.endswith for a single character. -/
def endsWithChar (ch : Char) (s : List Char) : Bool :=
  match s.getLast? with
  | some c => c = ch
  | none => false

/-- Python str.isalnum(): nonempty and every character alphanumeric (ASCII
model). -/
def pyIsAlnumStr (s : List Char) : Bool :=
  !s.isEmpty && s.all Char.isAlphanum

/-- Bracket-stripping step of strip_string, translated with the source's own
condition. -/
def stripEnclosing (s : List Char) : List Char :=
  if (startsWithChar '{' s && endsWithChar '}' s && pyIsAlnumStr s)
      || (startsWithChar '(' s && endsWithChar ')' s && pyIsAlnumStr s)
      || (startsWithChar '[' s && endsWithChar ']' s && pyIsAlnumStr s) then
    (s.drop 1).dropLast
  else s

/-- Embedding of fix_sqrt (parser.py lines 63 to 66). -/
def fix_sqrt (s : List Char) : List Char :=
  sqrtFix s

/-- Segment handler of fix_fracs: none models the failed assertion that
returns the original string. -/
def fixFracsSeg : List Char → Option (List Char)
  | '{' :: rest => some ('{' :: rest)
  | a :: b :: post =>
    some (if b ≠ '{' then '{' :: a :: '}' :: '{' :: b :: '}' :: post
          else '{' :: a :: '}' :: b :: post)
  | _ => none

/-- Fold over the split segments of fix_fracs. -/
def fixFracsGo : List (List Char) → Option (List Char)
  | [] => some []
  | seg :: rest =>
    match fixFracsSeg seg, fixFracsGo rest with
    | some piece, some out => some (("\\frac".data) ++ piece ++ out)
    | _, _ => none

/-- Embedding of fix_fracs (parser.py lines 12 to 42). -/
def fix_fracs (s : List Char) : List Char :=
  match pySplit s ("\\frac".data) with
  | [] => s
  | first :: rest =>
    match rest with
    | [] => first
    | _ :: _ =>
      match fixFracsGo rest with
      | some out => first ++ out
      | none => s

/-- Embedding of fix_a_slash_b (parser.py lines 45 to 60); int() failures and
the failed f-string assertion both return the original string. -/
def fix_a_slash_b (s : List Char) : List Char :=
  match pySplit s ['/'] with
  | [a, b] =>
    let fa : Option (List Char) :=
      if containsSub ("sqrt".data) a then some a
      else (pyInt a).map (fun n => (toString n).data)
    let fb : Option (List Char) :=
      if containsSub ("sqrt".data) b then some b
      else (pyInt b).map (fun n => (toString n).data)
    match fa, fb with
    | some fa, some fb =>
      if s = fa ++ '/' :: fb then
        ("\\frac".data) ++ '{' :: fa ++ '}' :: '{' :: fb ++ ['}']
      else s
    | _, _ => s
  | _ => s

/-- Stages of strip_string before the unit loop (parser.py lines 219 to
241), one let binding per source statement, in source order. -/
def preUnits (s0 : List Char) : List Char :=
  let s := pyStrip s0
  let s := pyReplace s ['\n'] []
  let s := pyRStripChars ['.'] s
  let s := pyReplace s ('\\' :: ['!']) []
  let s := subArrayBegin s
  let s := pyReplace s ('\\' :: ("end".data) ++ '{' :: ("array".data) ++ ['}'])
                      ('\\' :: ("end".data) ++ '{' :: ("pmatrix".data) ++ ['}'])
  let s := pyReplace s ("bmatrix".data) ("pmatrix".data)
  let s := pyReplace s ("tfrac".data) ("frac".data)
  let s := pyReplace s ("dfrac".data) ("frac".data)
  let s := pyReplace s ("\\neq".data) ("\\ne".data)
  let s := pyReplace s ("\\leq".data) ("\\le".data)
  let s := pyReplace s ("\\geq".data) ("\\ge".data)
  let s := pyReplace s ("\\left".data) []
  let s := pyReplace s ("\\right".data) []
  let s := pyReplace s ['\\', '{'] ['{']
  let s := pyReplace s ['\\', '}'] ['}']
  let s2 := pyStrip (removeTrailingTextCmd s)
  if s2 ≠ [] && s2 ≠ s then s2 else s

/-- Stages of strip_string after the unit loop (parser.py lines 250 to 326),
one let binding per source statement, in source order; the two quote
removals of lines 301 and 302 discard their results in the source and are
therefore no-ops. -/
def postUnits (s1 : List Char) : List Char :=
  let s := pyReplace s1 ('^' :: '{' :: ("\\circ".data) ++ ['}']) []
  let s := pyReplace s ('^' :: ("\\circ".data)) []
  let s := pyReplace s ['\\', '$'] []
  let s := pyReplace s ['$'] []
  let s := pyReplace s ['\\', '('] []
  let s := pyReplace s ['\\', ')'] []
  let s := convert_word_number s
  let s := unwrapText s
  let s := [("x=" : String), "y=", "z=", "x\\in", "y\\in", "z\\in",
            "x\\to", "y\\to", "z\\to"].foldl
    (fun cur key => pyReplace cur key.data []) s
  let s := pyReplace s ("\\emptyset".data) ['{', '}']
  let s := pyReplace s ("(-\\infty,\\infty)".data) ("\\mathbb".data ++ ['{', 'R', '}'])
  let s := pyReplace s ['\\', '%'] []
  let s := pyReplace s ['\\', '%'] []
  let s := pyReplace s ['%'] []
  let s := pyReplace s [' ', '.'] [' ', '0', '.']
  let s := pyReplace s ['{', '.'] ['{', '0', '.']
  let s := stripEnclosing s
  let s := pyReplace s ("infinity".data) ("\\infty".data)
  let s := if !containsSub ("\\infty".data) s then
             pyReplace s ("inf".data) ("\\infty".data)
           else s
  let s := pyReplace s ('+' :: ("\\inity".data)) ("\\infty".data)
  let s := pyReplace s ("and".data) []
  let s := pyReplace s ("\\mathbf".data) []
  let s := removeMbox s
  let s := if containsSub ['j'] s && !containsSub ['i'] s then
             pyReplace s ['j'] ['i']
           else s
  let s := zeros1 s
  let s := zeros2 s
  if s = [] then []
  else
    let s := if startsWithChar '.' s then '0' :: s else s
    let s :=
      match pySplit s ['='] with
      | [l, r] => if l.length ≤ 2 then r else s
      | _ => s
    let s := fix_sqrt s
    let s := pyReplace s [' '] []
    let s := fix_fracs s
    let s := fix_a_slash_b s
    s

/-- Embedding of strip_string (parser.py lines 217 to 326): the stages
before the unit loop, the two vocabulary passes unless skip_unit is set
(lines 243 to 248), then the remaining stages. -/
def stripStringCore (s0 : List Char) (skip_unit : Bool) : List Char :=
  postUnits (if skip_unit then preUnits s0
             else unitsPassOnce (unitsPassOnce (preUnits s0)))

/-- Embedding of strip_string on Lean strings. -/
def strip_string (s : String) (skip_unit : Bool) : String :=
  String.mk (stripStringCore s.data skip_unit)

/-- Stage one of choice_answer_clean (parser.py lines 331 to 340): strip
newlines from both ends, then cut at the first blank line when either
trigger phrase occurs more than once. -/
def choicePre (pred0 : List Char) : List Char :=
  let pred := pyStripChars ['\n'] pred0
  let icl := decide (1 < pyCount pred ("choice is".data))
          || decide (1 < pyCount pred ("answer is".data))
  if icl then beforeFirstOrAll ("\n\n".data) pred else pred

/-- Trigger split of choice_answer_clean (parser.py line 343). -/
def choiceSplitParts (pred0 : List Char) : List (List Char) :=
  splitTriggers (choicePre pred0)

/-- Answer flag of choice_answer_clean: true when the trigger split produced
more than one segment. -/
def choiceAnswerFlag (pred0 : List Char) : Bool :=
  decide (1 < (choiceSplitParts pred0).length)

/-- Segment kept after the trigger split (the last one when the flag is
set, the whole pre-processed string otherwise). -/
def choiceSegment (pred0 : List Char) : List Char :=
  if choiceAnswerFlag pred0 then (choiceSplitParts pred0).getLastD []
  else choicePre pred0

/-- Punctuation cleanup of parser.py line 350 applied to the kept segment. -/
def choiceCleaned (pred0 : List Char) : List Char :=
  pyLStripChars [':']
    (pyStripChars [' ']
      (pyRStripChars ['/']
        (pyRStripChars ['.']
          (pyStripChars ['\n'] (choiceSegment pred0)))))

/-- Standalone letters A to E found in the uppercased cleaned segment. -/
def choiceLetters (pred0 : List Char) : List (List Char) :=
  findLetters (pyUpper (choiceCleaned pred0))

/-- Embedding of choice_answer_clean (parser.py lines 329 to 368).  When no
letter is found the kept list is the singleton fallback, whose first and
last elements coincide, and the empty-list guard of line 359 is unreachable
since both branches of line 353 to 357 produce a nonempty list; the final
punctuation strip of line 367 is applied to the chosen element. -/
def choiceAnswerCleanCore (pred0 : List Char) : List Char :=
  match choiceLetters pred0 with
  | [] =>
    pyRStripChars ['/'] (pyRStripChars ['.']
      (pyStripChars ['.'] (pyStrip (choiceCleaned pred0))))
  | a :: rest =>
    pyRStripChars ['/'] (pyRStripChars ['.']
      (if choiceAnswerFlag pred0 then (a :: rest).headD []
       else (a :: rest).getLastD []))

/-- Embedding of choice_answer_clean on Lean strings. -/
def choice_answer_clean (pred : String) : String :=
  String.mk (choiceAnswerCleanCore pred.data)

/-- Brace-depth scanner of the boxed branch of extract_answer (parser.py
lines 399 to 411): depth starts at one, the accumulated content stops at the
matching close brace, and a malformed tail yields the accumulation. -/
def braceScan : Nat → List Char → List Char → List Char
  | _, acc, [] => acc.reverse
  | stack, acc, c :: cs =>
    if c = '{' then braceScan (stack + 1) (c :: acc) cs
    else if c = '}' then
      if stack = 1 then acc.reverse else braceScan (stack - 1) (c :: acc) cs
    else braceScan stack (c :: acc) cs

/-- Multiple-choice dataset names of parser.py line 385. -/
def MC_DATASETS : List String :=
  ["mmlu_stem", "sat_math", "aqua", "gaokao2023"]

/-- Cleanup tail of extract_answer before strip_string (parser.py lines 433
to 448): choice-dataset letter re-scan, newline collapse, single
leading-colon and trailing-dot-or-slash strips. -/
def extractClean (pred0 : List Char) (data_name : String) : List Char :=
  let pred :=
    if (["sat_math", "aqua"] : List String).contains data_name
        || containsSub ("mmlu".data) data_name.data then
      match (findLetters (pyUpper pred0)).getLast? with
      | some l => l
      | none => pyStripChars ['.'] (pyStrip pred0)
    else pred0
  let pred := newlineSub pred
  let pred := if startsWithChar ':' pred then pred.drop 1 else pred
  let pred := if endsWithChar '.' pred then pred.dropLast else pred
  if endsWithChar '/' pred then pred.dropLast else pred

/-- Post-processing tail of extract_answer (parser.py lines 433 to 451):
the cleanup stage, then strip_string with the skip-unit flag of line 450. -/
def extractPost (pred0 : List Char) (data_name : String) : List Char :=
  stripStringCore (extractClean pred0 data_name)
    ((["carp_en", "minerva_math"] : List String).contains data_name)

/-- Strategy selection of extract_answer after the initial character removal
(parser.py lines 385 to 431), in source order. -/
def extractRestCore (ps : List Char) (data_name : String)
    (use_last_number : Bool) : List Char :=
  if MC_DATASETS.contains data_name then choiceAnswerCleanCore ps
  else if containsSub ("final answer is $".data) ps
      && containsSub ("$. I hope".data) ps then
    extractPost
      (pyStrip (beforeFirstOrAll ("$. I hope".data)
        (afterFirstSub ("final answer is $".data) ps))) data_name
  else if containsSub ("boxed".data) ps then
    let ans := afterLastSub ("boxed".data) ps
    match ans with
    | [] => []
    | '{' :: rest => extractPost (braceScan 1 [] rest) data_name
    | _ => extractPost (pyStrip (beforeFirstOrAll ['$'] ans)) data_name
  else if containsSub ("he answer is".data) ps then
    extractPost (pyStrip (afterLastSub ("he answer is".data) ps)) data_name
  else if containsSub ("final answer is".data) ps then
    extractPost (pyStrip (afterLastSub ("final answer is".data) ps)) data_name
  else if containsSub ("答案是".data) ps then
    extractPost
      (pyStrip (beforeFirstOrAll ("\n\n".data)
        (pyStrip ((pySplit ps ("答案是".data)).getD 1 [])))) data_name
  else if use_last_number then
    extractPost ((findNumbers (pyReplace ps [','] [])).getLastD []) data_name
  else
    extractPost [] data_name

/-- Initial character removal of extract_answer, parser.py line 382. -/
def removeKi (ps : List Char) : List Char :=
  pyReplace ps ("ки".data) []

/-- Embedding of extract_answer (parser.py lines 371 to 451). -/
def extract_answer (pred_str data_name : String) (use_last_number : Bool) :
    String :=
  String.mk (extractRestCore (removeKi pred_str.data) data_name use_last_number)

/-- Assistant-turn marker of extract_solution. -/
def ASSISTANT_MARKER : String :=
  "<|im_start|>assistant"

/-- Embedding of the prompt-prefix removal of hf_math_verify.py line 36:
when the marker occurs, everything before its first occurrence is dropped. -/
def assistantTrim (s : List Char) : List Char :=
  if containsSub ASSISTANT_MARKER.data s then fromFirstSub ASSISTANT_MARKER.data s
  else s

/-- Stop tokens of hf_math_verify.py line 39, in source order. -/
def STOP_WORDS : List String :=
  ["</s>", "<|im_end|>", "<|endoftext|>", "[END]"]

/-- Sequential stop-token trimming of hf_math_verify.py lines 40 to 42. -/
def stopTrim (s : List Char) : List Char :=
  STOP_WORDS.foldl
    (fun m sw => if containsSub sw.data m then pyStrip (beforeFirstSub sw.data m)
                 else m) s

/-- Stop-token-trimmed, assistant-marker-truncated response text, before the
final 300-character cut. -/
def trimmedOutput (response : String) : List Char :=
  stopTrim (assistantTrim response.data)

/-- Embedding of extract_solution (hf_math_verify.py lines 33 to 48). -/
def extract_solution (response : String) : String :=
  extract_answer (String.mk (lastN 300 (trimmedOutput response))) "math" false

/-- Parsed value universe for the external math_verify and sympy black
boxes: a symbolic or matrix expression (abstract identifier), a plain
string, a list of parses, or any other object. -/
inductive SymVal where
  | sym (id : Nat)
  | txt (s : String)
  | vlist (elems : List SymVal)
  | other (id : Nat)
deriving Repr

/-- List test used by the operand promotion of _verify_with_sympy. -/
def isVlist : SymVal → Bool
  | SymVal.vlist _ => true
  | _ => false

/-- Promotion of a parsed operand to a candidate set (hf_math_verify.py
lines 72 to 75). -/
def asCandidates : SymVal → List SymVal
  | SymVal.vlist l => l
  | v => [v]

/-- Embedding of compare_single (hf_math_verify.py lines 57 to 64); the
sympy comparison is an oracle that may raise, the string branch strips both
sides and requires nonemptiness and equality, anything else is unequal. -/
def compare_single (eqO : Nat → Nat → Except Unit Bool) :
    SymVal → SymVal → Except Unit Bool
  | SymVal.sym a, SymVal.sym b => eqO a b
  | SymVal.txt a, SymVal.txt b =>
    let g := pyStrip a.data
    let t := pyStrip b.data
    Except.ok (decide (0 < g.length) && decide (0 < t.length) && decide (g = t))
  | _, _ => Except.ok false

/-- Embedding of safe_compare (hf_math_verify.py lines 66 to 70): an
exception from one comparison becomes an unequal verdict. -/
def safe_compare (eqO : Nat → Nat → Except Unit Bool) (g t : SymVal) : Bool :=
  match compare_single eqO g t with
  | Except.ok b => b
  | Except.error _ => false

/-- Cartesian product in the iteration order of itertools.product. -/
def pyProduct {α β : Type} (l1 : List α) (l2 : List β) : List (α × β) :=
  l1.flatMap (fun a => l2.map (fun b => (a, b)))

/-- Embedding of _verify_with_sympy (hf_math_verify.py lines 51 to 77). -/
def verify_with_sympy (eqO : Nat → Nat → Except Unit Bool)
    (gold target : SymVal) : Bool :=
  (pyProduct (asCandidates gold) (asCandidates target)).any
    (fun p => safe_compare eqO p.1 p.2)

/-- Embedding of _hf_verify (hf_math_verify.py lines 80 to 93): fast path on
identical strings, then parse of target and gold by the external parser
oracle (either raise gives false), then the sympy product scan. -/
def hf_verify (parseO : String → Except Unit SymVal)
    (eqO : Nat → Nat → Except Unit Bool) (gold target : String) : Bool :=
  if gold = target then true
  else
    match parseO target with
    | Except.error _ => false
    | Except.ok pt =>
      match parseO gold with
      | Except.error _ => false
      | Except.ok pg => verify_with_sympy eqO pg pt

/-- Embedding of get_dapo_math_reward (hf_math_verify.py lines 96 to 134),
parameterised by the two external oracles; the falsy-label test is the
empty-string test on the string model of labels. -/
def get_dapo_math_reward (parseO : String → Except Unit SymVal)
    (eqO : Nat → Nat → Except Unit Bool) (response label : String) : Nat :=
  if label = "" then 0
  else
    let extracted := extract_solution response
    if extracted = "" then 0
    else
      let boxed_answer :=
        if !containsSub ("\\boxed".data) extracted.data then
          String.mk (("\\boxed".data) ++ '{' :: extracted.data ++ ['}'])
        else extracted
      let boxed_label :=
        if !containsSub ("\\boxed".data) label.data then
          String.mk (("\\boxed".data) ++ '{' :: label.data ++ ['}'])
        else label
      if hf_verify parseO eqO boxed_label boxed_answer then 1 else 0

/-- Python value universe for the JSON body handled by local_search. -/
inductive PyVal where
  | noneV
  | boolV (b : Bool)
  | intV (n : Int)
  | strV (s : String)
  | listV (l : List PyVal)
  | dictV (entries : List (String × PyVal))
deriving Repr

/-- Exceptions the post-transport code of local_search can raise. -/
inductive PyErr where
  | attributeError
  | indexError
  | typeError
  | keyError
deriving DecidableEq, Repr

/-- Python dict.get(key, default); a non-dict receiver raises
AttributeError. -/
def pyGetDefault (v : PyVal) (key : String) (dflt : PyVal) :
    Except PyErr PyVal :=
  match v with
  | PyVal.dictV es => Except.ok ((es.lookup key).getD dflt)
  | _ => Except.error PyErr.attributeError

/-- Python subscript [0]. -/
def pySubscriptZero (v : PyVal) : Except PyErr PyVal :=
  match v with
  | PyVal.listV (x :: _) => Except.ok x
  | PyVal.listV [] => Except.error PyErr.indexError
  | PyVal.strV s =>
    match s.data with
    | c :: _ => Except.ok (PyVal.strV (String.mk [c]))
    | [] => Except.error PyErr.indexError
  | PyVal.dictV _ => Except.error PyErr.keyError
  | _ => Except.error PyErr.typeError

/-- Python iteration over a value (for item in ...). -/
def pyIterate : PyVal → Except PyErr (List PyVal)
  | PyVal.listV l => Except.ok l
  | PyVal.strV s => Except.ok (s.data.map (fun c => PyVal.strV (String.mk [c])))
  | PyVal.dictV es => Except.ok (es.map (fun e => PyVal.strV e.1))
  | _ => Except.error PyErr.typeError

/-- Python truthiness. -/
def pyTruthy : PyVal → Bool
  | PyVal.noneV => false
  | PyVal.boolV b => b
  | PyVal.intV n => decide (n ≠ 0)
  | PyVal.strV s => decide (s ≠ "")
  | PyVal.listV l => !l.isEmpty
  | PyVal.dictV es => !es.isEmpty

/-- Default context appended for an item whose contents are falsy
(local_search_server.py lines 117 to 120). -/
def defaultDoc : PyVal :=
  PyVal.dictV [("document",
    PyVal.dictV [("contents",
      PyVal.strV "\"No title.\"\nNo snippet available.")])]

/-- Title-and-body formatting of local_search_server.py lines 93 to 115 for
one nonempty string contents field. -/
def formatDoc (content : List Char) : PyVal :=
  let hasNl := containsSub ['\n'] content
  let title := pyStrip (beforeFirstOrAll ['\n'] content)
  let text := if hasNl then pyStrip (afterFirstSub ['\n'] content) else []
  let title := pyStripChars ['"'] title
  let title := if title ≠ [] then '"' :: title ++ ['"']
               else ("\"No title.\"").data
  let text := if text = [] then ("No snippet available.").data else text
  PyVal.dictV [("document",
    PyVal.dictV [("contents", PyVal.strV (String.mk (title ++ '\n' :: text)))])]

/-- Item loop of local_search_server.py lines 86 to 120; a truthy non-string
contents value raises AttributeError at the split call. -/
def processItems : List PyVal → Except PyErr (List PyVal)
  | [] => Except.ok []
  | item :: rest =>
    match item with
    | PyVal.dictV es =>
      let content := (es.lookup "contents").getD (PyVal.strV "")
      if pyTruthy content then
        match content with
        | PyVal.strV s => do
          let out ← processItems rest
          Except.ok (formatDoc s.data :: out)
        | _ => Except.error PyErr.attributeError
      else do
        let out ← processItems rest
        Except.ok (defaultDoc :: out)
    | _ => processItems rest

/-- Transport phase of local_search: everything inside the try block of
local_search_server.py lines 69 to 76 either fails (network, status or JSON
decode error) or produces a decoded body. -/
inductive TransportOutcome where
  | failure
  | success (body : PyVal)

/-- Embedding of local_search (local_search_server.py lines 28 to 123): the
except branch returns the empty list, while the result-shape parsing after
the try block may raise. -/
def local_search : TransportOutcome → Except PyErr (List PyVal)
  | TransportOutcome.failure => Except.ok []
  | TransportOutcome.success result => do
    let rr0 ← pyGetDefault result "result" (PyVal.listV [PyVal.listV []])
    let rr ← pySubscriptZero rr0
    let items ← pyIterate rr
    processItems items

/-- A string with no occurrence of the pattern is left unchanged by the
replacement scanner, at any fuel. -/
theorem pyReplaceGo_of_not_contains (old new : List Char) :
    ∀ (fuel : Nat) (s : List Char), containsSub old s = false →
      pyReplaceGo old new fuel s = s := by
  intro fuel
  induction fuel with
  | zero =>
    intro s _
    cases s <;> rfl
  | succ n ih =>
    intro s h
    cases s with
    | nil => rfl
    | cons c cs =>
      unfold containsSub at h
      rw [Bool.or_eq_false_iff] at h
      unfold pyReplaceGo
      rw [if_neg (by simp [h.1]), ih cs h.2]

/-- Removing the pattern from a string that does not contain it is the
identity; specialisation used for the initial character removal of
extract_answer. -/
theorem removeKi_of_not_contains (t : List Char)
    (h : containsSub (("ки").data) t = false) : removeKi t = t :=
  pyReplaceGo_of_not_contains _ _ _ t h

/-- The unit fold over a vocabulary splits at any position, allowing staged
evaluation of the vocabulary pass. -/
theorem unitsLoop_take_drop (n : Nat) (us : List String) (s : List Char) :
    unitsLoop us s = unitsLoop (us.drop n) (unitsLoop (us.take n) s) := by
  unfold unitsLoop
  rw [← List.foldl_append, List.take_append_drop]

set_option maxRecDepth 1600

/-- Staged concrete evaluation of stripStringCore with skip_unit false,
with the two vocabulary passes split into chunks of 66 units. -/
theorem stripFF_Ta : stripStringCore ['{', 'a', '}', '+', '{', 'b', '}'] false = ['{', '}', '+', '{', 'b', '}'] := by
  have q0 : preUnits ['{', 'a', '}', '+', '{', 'b', '}'] = ['{', 'a', '}', '+', '{', 'b', '}'] := by decide
  have p1 : unitsLoop (UNIT_TEXTS.take 66) ['{', 'a', '}', '+', '{', 'b', '}'] = ['{', '}', '+', '{', 'b', '}'] := by decide
  have p2 : unitsLoop ((UNIT_TEXTS.drop 66).take 66) ['{', '}', '+', '{', 'b', '}'] = ['{', '}', '+', '{', 'b', '}'] := by decide
  have p3 : unitsLoop (((UNIT_TEXTS.drop 66).drop 66).take 66) ['{', '}', '+', '{', 'b', '}'] = ['{', '}', '+', '{', 'b', '}'] := by decide
  have p4 : unitsLoop (((UNIT_TEXTS.drop 66).drop 66).drop 66) ['{', '}', '+', '{', 'b', '}'] = ['{', '}', '+', '{', 'b', '}'] := by decide
  have h1 : unitsPassOnce ['{', 'a', '}', '+', '{', 'b', '}'] = ['{', '}', '+', '{', 'b', '}'] := by
    rw [show unitsPassOnce ['{', 'a', '}', '+', '{', 'b', '}'] = unitsLoop UNIT_TEXTS ['{', 'a', '}', '+', '{', 'b', '}'] from rfl,
        unitsLoop_take_drop 66 UNIT_TEXTS, p1,
        unitsLoop_take_drop 66 (UNIT_TEXTS.drop 66), p2,
        unitsLoop_take_drop 66 ((UNIT_TEXTS.drop 66).drop 66), p3, p4]
  have p5 : unitsLoop (UNIT_TEXTS.take 66) ['{', '}', '+', '{', 'b', '}'] = ['{', '}', '+', '{', 'b', '}'] := by decide
  have p6 : unitsLoop ((UNIT_TEXTS.drop 66).take 66) ['{', '}', '+', '{', 'b', '}'] = ['{', '}', '+', '{', 'b', '}'] := by decide
  have p7 : unitsLoop (((UNIT_TEXTS.drop 66).drop 66).take 66) ['{', '}', '+', '{', 'b', '}'] = ['{', '}', '+', '{', 'b', '}'] := by decide
  have p8 : unitsLoop (((UNIT_TEXTS.drop 66).drop 66).drop 66) ['{', '}', '+', '{', 'b', '}'] = ['{', '}', '+', '{', 'b', '}'] := by decide
  have h2 : unitsPassOnce ['{', '}', '+', '{', 'b', '}'] = ['{', '}', '+', '{', 'b', '}'] := by
    rw [show unitsPassOnce ['{', '}', '+', '{', 'b', '}'] = unitsLoop UNIT_TEXTS ['{', '}', '+', '{', 'b', '}'] from rfl,
        unitsLoop_take_drop 66 UNIT_TEXTS, p5,
        unitsLoop_take_drop 66 (UNIT_TEXTS.drop 66), p6,
        unitsLoop_take_drop 66 ((UNIT_TEXTS.drop 66).drop 66), p7, p8]
  have q1 : postUnits ['{', '}', '+', '{', 'b', '}'] = ['{', '}', '+', '{', 'b', '}'] := by decide
  rw [show stripStringCore ['{', 'a', '}', '+', '{', 'b', '}'] false
        = postUnits (unitsPassOnce (unitsPassOnce (preUnits ['{', 'a', '}', '+', '{', 'b', '}']))) from rfl,
      q0, h1, h2, q1]

/-- Staged concrete evaluation of stripStringCore with skip_unit false,
with the two vocabulary passes split into chunks of 66 units. -/
theorem stripFF_Tb : stripStringCore ['a', 'a', 'n', 'd', 'n', 'd'] false = ['a', 'n', 'd'] := by
  have q0 : preUnits ['a', 'a', 'n', 'd', 'n', 'd'] = ['a', 'a', 'n', 'd', 'n', 'd'] := by decide
  have p1 : unitsLoop (UNIT_TEXTS.take 66) ['a', 'a', 'n', 'd', 'n', 'd'] = ['a', 'a', 'n', 'd', 'n', 'd'] := by decide
  have p2 : unitsLoop ((UNIT_TEXTS.drop 66).take 66) ['a', 'a', 'n', 'd', 'n', 'd'] = ['a', 'a', 'n', 'd', 'n', 'd'] := by decide
  have p3 : unitsLoop (((UNIT_TEXTS.drop 66).drop 66).take 66) ['a', 'a', 'n', 'd', 'n', 'd'] = ['a', 'a', 'n', 'd', 'n', 'd'] := by decide
  have p4 : unitsLoop (((UNIT_TEXTS.drop 66).drop 66).drop 66) ['a', 'a', 'n', 'd', 'n', 'd'] = ['a', 'a', 'n', 'd', 'n', 'd'] := by decide
  have h1 : unitsPassOnce ['a', 'a', 'n', 'd', 'n', 'd'] = ['a', 'a', 'n', 'd', 'n', 'd'] := by
    rw [show unitsPassOnce ['a', 'a', 'n', 'd', 'n', 'd'] = unitsLoop UNIT_TEXTS ['a', 'a', 'n', 'd', 'n', 'd'] from rfl,
        unitsLoop_take_drop 66 UNIT_TEXTS, p1,
        unitsLoop_take_drop 66 (UNIT_TEXTS.drop 66), p2,
        unitsLoop_take_drop 66 ((UNIT_TEXTS.drop 66).drop 66), p3, p4]
  have p5 : unitsLoop (UNIT_TEXTS.take 66) ['a', 'a', 'n', 'd', 'n', 'd'] = ['a', 'a', 'n', 'd', 'n', 'd'] := by decide
  have p6 : unitsLoop ((UNIT_TEXTS.drop 66).take 66) ['a', 'a', 'n', 'd', 'n', 'd'] = ['a', 'a', 'n', 'd', 'n', 'd'] := by decide
  have p7 : unitsLoop (((UNIT_TEXTS.drop 66).drop 66).take 66) ['a', 'a', 'n', 'd', 'n', 'd'] = ['a', 'a', 'n', 'd', 'n', 'd'] := by decide
  have p8 : unitsLoop (((UNIT_TEXTS.drop 66).drop 66).drop 66) ['a', 'a', 'n', 'd', 'n', 'd'] = ['a', 'a', 'n', 'd', 'n', 'd'] := by decide
  have h2 : unitsPassOnce ['a', 'a', 'n', 'd', 'n', 'd'] = ['a', 'a', 'n', 'd', 'n', 'd'] := by
    rw [show unitsPassOnce ['a', 'a', 'n', 'd', 'n', 'd'] = unitsLoop UNIT_TEXTS ['a', 'a', 'n', 'd', 'n', 'd'] from rfl,
        unitsLoop_take_drop 66 UNIT_TEXTS, p5,
        unitsLoop_take_drop 66 (UNIT_TEXTS.drop 66), p6,
        unitsLoop_take_drop 66 ((UNIT_TEXTS.drop 66).drop 66), p7, p8]
  have q1 : postUnits ['a', 'a', 'n', 'd', 'n', 'd'] = ['a', 'n', 'd'] := by decide
  rw [show stripStringCore ['a', 'a', 'n', 'd', 'n', 'd'] false
        = postUnits (unitsPassOnce (unitsPassOnce (preUnits ['a', 'a', 'n', 'd', 'n', 'd']))) from rfl,
      q0, h1, h2, q1]

/-- Staged concrete evaluation of stripStringCore with skip_unit false,
with the two vocabulary passes split into chunks of 66 units. -/
theorem stripFF_Tc : stripStringCore ['a', 'n', 'd'] false = ([] : List Char) := by
  have q0 : preUnits ['a', 'n', 'd'] = ['a', 'n', 'd'] := by decide
  have p1 : unitsLoop (UNIT_TEXTS.take 66) ['a', 'n', 'd'] = ['a', 'n', 'd'] := by decide
  have p2 : unitsLoop ((UNIT_TEXTS.drop 66).take 66) ['a', 'n', 'd'] = ['a', 'n', 'd'] := by decide
  have p3 : unitsLoop (((UNIT_TEXTS.drop 66).drop 66).take 66) ['a', 'n', 'd'] = ['a', 'n', 'd'] := by decide
  have p4 : unitsLoop (((UNIT_TEXTS.drop 66).drop 66).drop 66) ['a', 'n', 'd'] = ['a', 'n', 'd'] := by decide
  have h1 : unitsPassOnce ['a', 'n', 'd'] = ['a', 'n', 'd'] := by
    rw [show unitsPassOnce ['a', 'n', 'd'] = unitsLoop UNIT_TEXTS ['a', 'n', 'd'] from rfl,
        unitsLoop_take_drop 66 UNIT_TEXTS, p1,
        unitsLoop_take_drop 66 (UNIT_TEXTS.drop 66), p2,
        unitsLoop_take_drop 66 ((UNIT_TEXTS.drop 66).drop 66), p3, p4]
  have p5 : unitsLoop (UNIT_TEXTS.take 66) ['a', 'n', 'd'] = ['a', 'n', 'd'] := by decide
  have p6 : unitsLoop ((UNIT_TEXTS.drop 66).take 66) ['a', 'n', 'd'] = ['a', 'n', 'd'] := by decide
  have p7 : unitsLoop (((UNIT_TEXTS.drop 66).drop 66).take 66) ['a', 'n', 'd'] = ['a', 'n', 'd'] := by decide
  have p8 : unitsLoop (((UNIT_TEXTS.drop 66).drop 66).drop 66) ['a', 'n', 'd'] = ['a', 'n', 'd'] := by decide
  have h2 : unitsPassOnce ['a', 'n', 'd'] = ['a', 'n', 'd'] := by
    rw [show unitsPassOnce ['a', 'n', 'd'] = unitsLoop UNIT_TEXTS ['a', 'n', 'd'] from rfl,
        unitsLoop_take_drop 66 UNIT_TEXTS, p5,
        unitsLoop_take_drop 66 (UNIT_TEXTS.drop 66), p6,
        unitsLoop_take_drop 66 ((UNIT_TEXTS.drop 66).drop 66), p7, p8]
  have q1 : postUnits ['a', 'n', 'd'] = ([] : List Char) := by decide
  rw [show stripStringCore ['a', 'n', 'd'] false
        = postUnits (unitsPassOnce (unitsPassOnce (preUnits ['a', 'n', 'd']))) from rfl,
      q0, h1, h2, q1]

/-- Staged concrete evaluation of stripStringCore with skip_unit false,
with the two vocabulary passes split into chunks of 66 units. -/
theorem stripFF_Td : stripStringCore ['3', '.', '0', '0'] false = ['3'] := by
  have q0 : preUnits ['3', '.', '0', '0'] = ['3', '.', '0', '0'] := by decide
  have p1 : unitsLoop (UNIT_TEXTS.take 66) ['3', '.', '0', '0'] = ['3', '.', '0', '0'] := by decide
  have p2 : unitsLoop ((UNIT_TEXTS.drop 66).take 66) ['3', '.', '0', '0'] = ['3', '.', '0', '0'] := by decide
  have p3 : unitsLoop (((UNIT_TEXTS.drop 66).drop 66).take 66) ['3', '.', '0', '0'] = ['3', '.', '0', '0'] := by decide
  have p4 : unitsLoop (((UNIT_TEXTS.drop 66).drop 66).drop 66) ['3', '.', '0', '0'] = ['3', '.', '0', '0'] := by decide
  have h1 : unitsPassOnce ['3', '.', '0', '0'] = ['3', '.', '0', '0'] := by
    rw [show unitsPassOnce ['3', '.', '0', '0'] = unitsLoop UNIT_TEXTS ['3', '.', '0', '0'] from rfl,
        unitsLoop_take_drop 66 UNIT_TEXTS, p1,
        unitsLoop_take_drop 66 (UNIT_TEXTS.drop 66), p2,
        unitsLoop_take_drop 66 ((UNIT_TEXTS.drop 66).drop 66), p3, p4]
  have p5 : unitsLoop (UNIT_TEXTS.take 66) ['3', '.', '0', '0'] = ['3', '.', '0', '0'] := by decide
  have p6 : unitsLoop ((UNIT_TEXTS.drop 66).take 66) ['3', '.', '0', '0'] = ['3', '.', '0', '0'] := by decide
  have p7 : unitsLoop (((UNIT_TEXTS.drop 66).drop 66).take 66) ['3', '.', '0', '0'] = ['3', '.', '0', '0'] := by decide
  have p8 : unitsLoop (((UNIT_TEXTS.drop 66).drop 66).drop 66) ['3', '.', '0', '0'] = ['3', '.', '0', '0'] := by decide
  have h2 : unitsPassOnce ['3', '.', '0', '0'] = ['3', '.', '0', '0'] := by
    rw [show unitsPassOnce ['3', '.', '0', '0'] = unitsLoop UNIT_TEXTS ['3', '.', '0', '0'] from rfl,
        unitsLoop_take_drop 66 UNIT_TEXTS, p5,
        unitsLoop_take_drop 66 (UNIT_TEXTS.drop 66), p6,
        unitsLoop_take_drop 66 ((UNIT_TEXTS.drop 66).drop 66), p7, p8]
  have q1 : postUnits ['3', '.', '0', '0'] = ['3'] := by decide
  rw [show stripStringCore ['3', '.', '0', '0'] false
        = postUnits (unitsPassOnce (unitsPassOnce (preUnits ['3', '.', '0', '0']))) from rfl,
      q0, h1, h2, q1]

/-- Staged concrete evaluation of stripStringCore with skip_unit false,
with the two vocabulary passes split into chunks of 66 units. -/
theorem stripFF_Te : stripStringCore ['3'] false = ['3'] := by
  have q0 : preUnits ['3'] = ['3'] := by decide
  have p1 : unitsLoop (UNIT_TEXTS.take 66) ['3'] = ['3'] := by decide
  have p2 : unitsLoop ((UNIT_TEXTS.drop 66).take 66) ['3'] = ['3'] := by decide
  have p3 : unitsLoop (((UNIT_TEXTS.drop 66).drop 66).take 66) ['3'] = ['3'] := by decide
  have p4 : unitsLoop (((UNIT_TEXTS.drop 66).drop 66).drop 66) ['3'] = ['3'] := by decide
  have h1 : unitsPassOnce ['3'] = ['3'] := by
    rw [show unitsPassOnce ['3'] = unitsLoop UNIT_TEXTS ['3'] from rfl,
        unitsLoop_take_drop 66 UNIT_TEXTS, p1,
        unitsLoop_take_drop 66 (UNIT_TEXTS.drop 66), p2,
        unitsLoop_take_drop 66 ((UNIT_TEXTS.drop 66).drop 66), p3, p4]
  have p5 : unitsLoop (UNIT_TEXTS.take 66) ['3'] = ['3'] := by decide
  have p6 : unitsLoop ((UNIT_TEXTS.drop 66).take 66) ['3'] = ['3'] := by decide
  have p7 : unitsLoop (((UNIT_TEXTS.drop 66).drop 66).take 66) ['3'] = ['3'] := by decide
  have p8 : unitsLoop (((UNIT_TEXTS.drop 66).drop 66).drop 66) ['3'] = ['3'] := by decide
  have h2 : unitsPassOnce ['3'] = ['3'] := by
    rw [show unitsPassOnce ['3'] = unitsLoop UNIT_TEXTS ['3'] from rfl,
        unitsLoop_take_drop 66 UNIT_TEXTS, p5,
        unitsLoop_take_drop 66 (UNIT_TEXTS.drop 66), p6,
        unitsLoop_take_drop 66 ((UNIT_TEXTS.drop 66).drop 66), p7, p8]
  have q1 : postUnits ['3'] = ['3'] := by decide
  rw [show stripStringCore ['3'] false
        = postUnits (unitsPassOnce (unitsPassOnce (preUnits ['3']))) from rfl,
      q0, h1, h2, q1]

/-- Staged concrete evaluation of stripStringCore with skip_unit false,
with the two vocabulary passes split into chunks of 66 units. -/
theorem stripFF_Tf : stripStringCore ['3', '.', '1', '0'] false = ['3', '.', '1', '0'] := by
  have q0 : preUnits ['3', '.', '1', '0'] = ['3', '.', '1', '0'] := by decide
  have p1 : unitsLoop (UNIT_TEXTS.take 66) ['3', '.', '1', '0'] = ['3', '.', '1', '0'] := by decide
  have p2 : unitsLoop ((UNIT_TEXTS.drop 66).take 66) ['3', '.', '1', '0'] = ['3', '.', '1', '0'] := by decide
  have p3 : unitsLoop (((UNIT_TEXTS.drop 66).drop 66).take 66) ['3', '.', '1', '0'] = ['3', '.', '1', '0'] := by decide
  have p4 : unitsLoop (((UNIT_TEXTS.drop 66).drop 66).drop 66) ['3', '.', '1', '0'] = ['3', '.', '1', '0'] := by decide
  have h1 : unitsPassOnce ['3', '.', '1', '0'] = ['3', '.', '1', '0'] := by
    rw [show unitsPassOnce ['3', '.', '1', '0'] = unitsLoop UNIT_TEXTS ['3', '.', '1', '0'] from rfl,
        unitsLoop_take_drop 66 UNIT_TEXTS, p1,
        unitsLoop_take_drop 66 (UNIT_TEXTS.drop 66), p2,
        unitsLoop_take_drop 66 ((UNIT_TEXTS.drop 66).drop 66), p3, p4]
  have p5 : unitsLoop (UNIT_TEXTS.take 66) ['3', '.', '1', '0'] = ['3', '.', '1', '0'] := by decide
  have p6 : unitsLoop ((UNIT_TEXTS.drop 66).take 66) ['3', '.', '1', '0'] = ['3', '.', '1', '0'] := by decide
  have p7 : unitsLoop (((UNIT_TEXTS.drop 66).drop 66).take 66) ['3', '.', '1', '0'] = ['3', '.', '1', '0'] := by decide
  have p8 : unitsLoop (((UNIT_TEXTS.drop 66).drop 66).drop 66) ['3', '.', '1', '0'] = ['3', '.', '1', '0'] := by decide
  have h2 : unitsPassOnce ['3', '.', '1', '0'] = ['3', '.', '1', '0'] := by
    rw [show unitsPassOnce ['3', '.', '1', '0'] = unitsLoop UNIT_TEXTS ['3', '.', '1', '0'] from rfl,
        unitsLoop_take_drop 66 UNIT_TEXTS, p5,
        unitsLoop_take_drop 66 (UNIT_TEXTS.drop 66), p6,
        unitsLoop_take_drop 66 ((UNIT_TEXTS.drop 66).drop 66), p7, p8]
  have q1 : postUnits ['3', '.', '1', '0'] = ['3', '.', '1', '0'] := by decide
  rw [show stripStringCore ['3', '.', '1', '0'] false
        = postUnits (unitsPassOnce (unitsPassOnce (preUnits ['3', '.', '1', '0']))) from rfl,
      q0, h1, h2, q1]

/-- Staged concrete evaluation of stripStringCore with skip_unit false,
with the two vocabulary passes split into chunks of 66 units. -/
theorem stripFF_Tg : stripStringCore ['1', '0', ' ', 'f', 'e', 'e', 't'] false = ['1', '0'] := by
  have q0 : preUnits ['1', '0', ' ', 'f', 'e', 'e', 't'] = ['1', '0', ' ', 'f', 'e', 'e', 't'] := by decide
  have p1 : unitsLoop (UNIT_TEXTS.take 66) ['1', '0', ' ', 'f', 'e', 'e', 't'] = ['1', '0', ' ', 'f', 'e', 'e', 't'] := by decide
  have p2 : unitsLoop ((UNIT_TEXTS.drop 66).take 66) ['1', '0', ' ', 'f', 'e', 'e', 't'] = ['1', '0', ' '] := by decide
  have p3 : unitsLoop (((UNIT_TEXTS.drop 66).drop 66).take 66) ['1', '0', ' '] = ['1', '0', ' '] := by decide
  have p4 : unitsLoop (((UNIT_TEXTS.drop 66).drop 66).drop 66) ['1', '0', ' '] = ['1', '0', ' '] := by decide
  have h1 : unitsPassOnce ['1', '0', ' ', 'f', 'e', 'e', 't'] = ['1', '0', ' '] := by
    rw [show unitsPassOnce ['1', '0', ' ', 'f', 'e', 'e', 't'] = unitsLoop UNIT_TEXTS ['1', '0', ' ', 'f', 'e', 'e', 't'] from rfl,
        unitsLoop_take_drop 66 UNIT_TEXTS, p1,
        unitsLoop_take_drop 66 (UNIT_TEXTS.drop 66), p2,
        unitsLoop_take_drop 66 ((UNIT_TEXTS.drop 66).drop 66), p3, p4]
  have p5 : unitsLoop (UNIT_TEXTS.take 66) ['1', '0', ' '] = ['1', '0', ' '] := by decide
  have p6 : unitsLoop ((UNIT_TEXTS.drop 66).take 66) ['1', '0', ' '] = ['1', '0', ' '] := by decide
  have p7 : unitsLoop (((UNIT_TEXTS.drop 66).drop 66).take 66) ['1', '0', ' '] = ['1', '0', ' '] := by decide
  have p8 : unitsLoop (((UNIT_TEXTS.drop 66).drop 66).drop 66) ['1', '0', ' '] = ['1', '0', ' '] := by decide
  have h2 : unitsPassOnce ['1', '0', ' '] = ['1', '0', ' '] := by
    rw [show unitsPassOnce ['1', '0', ' '] = unitsLoop UNIT_TEXTS ['1', '0', ' '] from rfl,
        unitsLoop_take_drop 66 UNIT_TEXTS, p5,
        unitsLoop_take_drop 66 (UNIT_TEXTS.drop 66), p6,
        unitsLoop_take_drop 66 ((UNIT_TEXTS.drop 66).drop 66), p7, p8]
  have q1 : postUnits ['1', '0', ' '] = ['1', '0'] := by decide
  rw [show stripStringCore ['1', '0', ' ', 'f', 'e', 'e', 't'] false
        = postUnits (unitsPassOnce (unitsPassOnce (preUnits ['1', '0', ' ', 'f', 'e', 'e', 't']))) from rfl,
      q0, h1, h2, q1]

/-- Staged concrete evaluation of stripStringCore with skip_unit false,
with the two vocabulary passes split into chunks of 66 units. -/
theorem stripFF_Th : stripStringCore ['1', '0'] false = ['1', '0'] := by
  have q0 : preUnits ['1', '0'] = ['1', '0'] := by decide
  have p1 : unitsLoop (UNIT_TEXTS.take 66) ['1', '0'] = ['1', '0'] := by decide
  have p2 : unitsLoop ((UNIT_TEXTS.drop 66).take 66) ['1', '0'] = ['1', '0'] := by decide
  have p3 : unitsLoop (((UNIT_TEXTS.drop 66).drop 66).take 66) ['1', '0'] = ['1', '0'] := by decide
  have p4 : unitsLoop (((UNIT_TEXTS.drop 66).drop 66).drop 66) ['1', '0'] = ['1', '0'] := by decide
  have h1 : unitsPassOnce ['1', '0'] = ['1', '0'] := by
    rw [show unitsPassOnce ['1', '0'] = unitsLoop UNIT_TEXTS ['1', '0'] from rfl,
        unitsLoop_take_drop 66 UNIT_TEXTS, p1,
        unitsLoop_take_drop 66 (UNIT_TEXTS.drop 66), p2,
        unitsLoop_take_drop 66 ((UNIT_TEXTS.drop 66).drop 66), p3, p4]
  have p5 : unitsLoop (UNIT_TEXTS.take 66) ['1', '0'] = ['1', '0'] := by decide
  have p6 : unitsLoop ((UNIT_TEXTS.drop 66).take 66) ['1', '0'] = ['1', '0'] := by decide
  have p7 : unitsLoop (((UNIT_TEXTS.drop 66).drop 66).take 66) ['1', '0'] = ['1', '0'] := by decide
  have p8 : unitsLoop (((UNIT_TEXTS.drop 66).drop 66).drop 66) ['1', '0'] = ['1', '0'] := by decide
  have h2 : unitsPassOnce ['1', '0'] = ['1', '0'] := by
    rw [show unitsPassOnce ['1', '0'] = unitsLoop UNIT_TEXTS ['1', '0'] from rfl,
        unitsLoop_take_drop 66 UNIT_TEXTS, p5,
        unitsLoop_take_drop 66 (UNIT_TEXTS.drop 66), p6,
        unitsLoop_take_drop 66 ((UNIT_TEXTS.drop 66).drop 66), p7, p8]
  have q1 : postUnits ['1', '0'] = ['1', '0'] := by decide
  rw [show stripStringCore ['1', '0'] false
        = postUnits (unitsPassOnce (unitsPassOnce (preUnits ['1', '0']))) from rfl,
      q0, h1, h2, q1]

/-- Staged concrete evaluation of stripStringCore with skip_unit false,
with the two vocabulary passes split into chunks of 66 units. -/
theorem stripFF_Ti : stripStringCore ['2'] false = ['2'] := by
  have q0 : preUnits ['2'] = ['2'] := by decide
  have p1 : unitsLoop (UNIT_TEXTS.take 66) ['2'] = ['2'] := by decide
  have p2 : unitsLoop ((UNIT_TEXTS.drop 66).take 66) ['2'] = ['2'] := by decide
  have p3 : unitsLoop (((UNIT_TEXTS.drop 66).drop 66).take 66) ['2'] = ['2'] := by decide
  have p4 : unitsLoop (((UNIT_TEXTS.drop 66).drop 66).drop 66) ['2'] = ['2'] := by decide
  have h1 : unitsPassOnce ['2'] = ['2'] := by
    rw [show unitsPassOnce ['2'] = unitsLoop UNIT_TEXTS ['2'] from rfl,
        unitsLoop_take_drop 66 UNIT_TEXTS, p1,
        unitsLoop_take_drop 66 (UNIT_TEXTS.drop 66), p2,
        unitsLoop_take_drop 66 ((UNIT_TEXTS.drop 66).drop 66), p3, p4]
  have p5 : unitsLoop (UNIT_TEXTS.take 66) ['2'] = ['2'] := by decide
  have p6 : unitsLoop ((UNIT_TEXTS.drop 66).take 66) ['2'] = ['2'] := by decide
  have p7 : unitsLoop (((UNIT_TEXTS.drop 66).drop 66).take 66) ['2'] = ['2'] := by decide
  have p8 : unitsLoop (((UNIT_TEXTS.drop 66).drop 66).drop 66) ['2'] = ['2'] := by decide
  have h2 : unitsPassOnce ['2'] = ['2'] := by
    rw [show unitsPassOnce ['2'] = unitsLoop UNIT_TEXTS ['2'] from rfl,
        unitsLoop_take_drop 66 UNIT_TEXTS, p5,
        unitsLoop_take_drop 66 (UNIT_TEXTS.drop 66), p6,
        unitsLoop_take_drop 66 ((UNIT_TEXTS.drop 66).drop 66), p7, p8]
  have q1 : postUnits ['2'] = ['2'] := by decide
  rw [show stripStringCore ['2'] false
        = postUnits (unitsPassOnce (unitsPassOnce (preUnits ['2']))) from rfl,
      q0, h1, h2, q1]

/-- Staged concrete evaluation of stripStringCore with skip_unit false,
with the two vocabulary passes split into chunks of 66 units. -/
theorem stripFF_Tj : stripStringCore ['1', '2'] false = ['1', '2'] := by
  have q0 : preUnits ['1', '2'] = ['1', '2'] := by decide
  have p1 : unitsLoop (UNIT_TEXTS.take 66) ['1', '2'] = ['1', '2'] := by decide
  have p2 : unitsLoop ((UNIT_TEXTS.drop 66).take 66) ['1', '2'] = ['1', '2'] := by decide
  have p3 : unitsLoop (((UNIT_TEXTS.drop 66).drop 66).take 66) ['1', '2'] = ['1', '2'] := by decide
  have p4 : unitsLoop (((UNIT_TEXTS.drop 66).drop 66).drop 66) ['1', '2'] = ['1', '2'] := by decide
  have h1 : unitsPassOnce ['1', '2'] = ['1', '2'] := by
    rw [show unitsPassOnce ['1', '2'] = unitsLoop UNIT_TEXTS ['1', '2'] from rfl,
        unitsLoop_take_drop 66 UNIT_TEXTS, p1,
        unitsLoop_take_drop 66 (UNIT_TEXTS.drop 66), p2,
        unitsLoop_take_drop 66 ((UNIT_TEXTS.drop 66).drop 66), p3, p4]
  have p5 : unitsLoop (UNIT_TEXTS.take 66) ['1', '2'] = ['1', '2'] := by decide
  have p6 : unitsLoop ((UNIT_TEXTS.drop 66).take 66) ['1', '2'] = ['1', '2'] := by decide
  have p7 : unitsLoop (((UNIT_TEXTS.drop 66).drop 66).take 66) ['1', '2'] = ['1', '2'] := by decide
  have p8 : unitsLoop (((UNIT_TEXTS.drop 66).drop 66).drop 66) ['1', '2'] = ['1', '2'] := by decide
  have h2 : unitsPassOnce ['1', '2'] = ['1', '2'] := by
    rw [show unitsPassOnce ['1', '2'] = unitsLoop UNIT_TEXTS ['1', '2'] from rfl,
        unitsLoop_take_drop 66 UNIT_TEXTS, p5,
        unitsLoop_take_drop 66 (UNIT_TEXTS.drop 66), p6,
        unitsLoop_take_drop 66 ((UNIT_TEXTS.drop 66).drop 66), p7, p8]
  have q1 : postUnits ['1', '2'] = ['1', '2'] := by decide
  rw [show stripStringCore ['1', '2'] false
        = postUnits (unitsPassOnce (unitsPassOnce (preUnits ['1', '2']))) from rfl,
      q0, h1, h2, q1]

/-- Staged concrete evaluation of stripStringCore with skip_unit false,
with the two vocabulary passes split into chunks of 66 units. -/
theorem stripFF_Tk : stripStringCore ['{', 'a', '1', '}'] false = ['{', 'a', '1', '}'] := by
  have q0 : preUnits ['{', 'a', '1', '}'] = ['{', 'a', '1', '}'] := by decide
  have p1 : unitsLoop (UNIT_TEXTS.take 66) ['{', 'a', '1', '}'] = ['{', 'a', '1', '}'] := by decide
  have p2 : unitsLoop ((UNIT_TEXTS.drop 66).take 66) ['{', 'a', '1', '}'] = ['{', 'a', '1', '}'] := by decide
  have p3 : unitsLoop (((UNIT_TEXTS.drop 66).drop 66).take 66) ['{', 'a', '1', '}'] = ['{', 'a', '1', '}'] := by decide
  have p4 : unitsLoop (((UNIT_TEXTS.drop 66).drop 66).drop 66) ['{', 'a', '1', '}'] = ['{', 'a', '1', '}'] := by decide
  have h1 : unitsPassOnce ['{', 'a', '1', '}'] = ['{', 'a', '1', '}'] := by
    rw [show unitsPassOnce ['{', 'a', '1', '}'] = unitsLoop UNIT_TEXTS ['{', 'a', '1', '}'] from rfl,
        unitsLoop_take_drop 66 UNIT_TEXTS, p1,
        unitsLoop_take_drop 66 (UNIT_TEXTS.drop 66), p2,
        unitsLoop_take_drop 66 ((UNIT_TEXTS.drop 66).drop 66), p3, p4]
  have p5 : unitsLoop (UNIT_TEXTS.take 66) ['{', 'a', '1', '}'] = ['{', 'a', '1', '}'] := by decide
  have p6 : unitsLoop ((UNIT_TEXTS.drop 66).take 66) ['{', 'a', '1', '}'] = ['{', 'a', '1', '}'] := by decide
  have p7 : unitsLoop (((UNIT_TEXTS.drop 66).drop 66).take 66) ['{', 'a', '1', '}'] = ['{', 'a', '1', '}'] := by decide
  have p8 : unitsLoop (((UNIT_TEXTS.drop 66).drop 66).drop 66) ['{', 'a', '1', '}'] = ['{', 'a', '1', '}'] := by decide
  have h2 : unitsPassOnce ['{', 'a', '1', '}'] = ['{', 'a', '1', '}'] := by
    rw [show unitsPassOnce ['{', 'a', '1', '}'] = unitsLoop UNIT_TEXTS ['{', 'a', '1', '}'] from rfl,
        unitsLoop_take_drop 66 UNIT_TEXTS, p5,
        unitsLoop_take_drop 66 (UNIT_TEXTS.drop 66), p6,
        unitsLoop_take_drop 66 ((UNIT_TEXTS.drop 66).drop 66), p7, p8]
  have q1 : postUnits ['{', 'a', '1', '}'] = ['{', 'a', '1', '}'] := by decide
  rw [show stripStringCore ['{', 'a', '1', '}'] false
        = postUnits (unitsPassOnce (unitsPassOnce (preUnits ['{', 'a', '1', '}']))) from rfl,
      q0, h1, h2, q1]

/-- A unit pattern, being nonempty, never matches inside the empty string. -/
theorem unitSub_nil (c : Char) (cs : List Char) : unitSub (c :: cs) [] = [] :=
  rfl

/-- The unit fold keeps the empty string empty for a vocabulary of nonempty
entries. -/
theorem unitsLoop_nil (us : List String) (h : ∀ u ∈ us, u.data ≠ []) :
    unitsLoop us [] = [] := by
  induction us with
  | nil => rfl
  | cons u rest ih =>
    have hu : u.data ≠ [] := h u (by simp)
    have hstep : unitStep [] u = [] := by
      cases hd : u.data with
      | nil => exact absurd hd hu
      | cons c cs => simp [unitStep, hd, unitSub_nil]
    show List.foldl unitStep [] (u :: rest) = []
    rw [List.foldl_cons, hstep]
    exact ih (fun v hv => h v (by simp [hv]))

/-- Every vocabulary entry is nonempty. -/
theorem UNIT_TEXTS_nonempty : ∀ u ∈ UNIT_TEXTS, u.data ≠ [] := by decide

/-- One vocabulary pass keeps the empty string empty. -/
theorem unitsPassOnce_nil : unitsPassOnce [] = [] := by
  rw [show unitsPassOnce [] = unitsLoop UNIT_TEXTS [] from rfl]
  exact unitsLoop_nil UNIT_TEXTS UNIT_TEXTS_nonempty

/-- Normalisation maps the empty string to the empty string for both flag
values. -/
theorem stripStringCore_nil (u : Bool) : stripStringCore [] u = [] := by
  cases u with
  | true => decide
  | false =>
    have hpre : preUnits [] = [] := by decide
    rw [show stripStringCore [] false
          = postUnits (unitsPassOnce (unitsPassOnce (preUnits []))) from rfl,
        hpre, unitsPassOnce_nil, unitsPassOnce_nil]
    decide

/-- Concrete normalisation fact used by several claims. -/
theorem stripS_aandnd : strip_string "aandnd" false = "and" := by
  unfold strip_string
  rw [(rfl : ("aandnd" : String).data = ['a', 'a', 'n', 'd', 'n', 'd']), stripFF_Tb]

/-- Concrete normalisation fact used by several claims. -/
theorem stripS_and : strip_string "and" false = "" := by
  unfold strip_string
  rw [(rfl : ("and" : String).data = ['a', 'n', 'd']), stripFF_Tc]

/-- Concrete normalisation fact used by several claims. -/
theorem stripS_300 : strip_string "3.00" false = "3" := by
  unfold strip_string
  rw [(rfl : ("3.00" : String).data = ['3', '.', '0', '0']), stripFF_Td]

/-- Concrete normalisation fact used by several claims. -/
theorem stripS_3 : strip_string "3" false = "3" := by
  unfold strip_string
  rw [(rfl : ("3" : String).data = ['3']), stripFF_Te]

/-- Concrete normalisation fact used by several claims. -/
theorem stripS_310 : strip_string "3.10" false = "3.10" := by
  unfold strip_string
  rw [(rfl : ("3.10" : String).data = ['3', '.', '1', '0']), stripFF_Tf]

/-- Concrete normalisation fact used by several claims. -/
theorem stripS_10feet : strip_string "10 feet" false = "10" := by
  unfold strip_string
  rw [(rfl : ("10 feet" : String).data = ['1', '0', ' ', 'f', 'e', 'e', 't']),
      stripFF_Tg]

/-- Concrete normalisation fact used by several claims. -/
theorem stripS_10 : strip_string "10" false = "10" := by
  unfold strip_string
  rw [(rfl : ("10" : String).data = ['1', '0']), stripFF_Th]

/-- Concrete normalisation fact used by several claims. -/
theorem stripS_a1 :
    strip_string (String.mk ['{', 'a', '1', '}']) false
      = String.mk ['{', 'a', '1', '}'] := by
  unfold strip_string
  rw [(rfl : (String.mk ['{', 'a', '1', '}']).data = ['{', 'a', '1', '}']),
      stripFF_Tk]

/-- Concrete extraction fact: the boxed brace scan on the nested-brace input
followed by normalisation for the math dataset kind, whose unit pass deletes
the standalone letter a. -/
theorem extractEval_braces_math :
    extract_answer
      (String.mk ['\\', 'b', 'o', 'x', 'e', 'd', '{', '{', 'a', '}', '+',
                  '{', 'b', '}', '}']) "math" true
      = String.mk ['{', '}', '+', '{', 'b', '}'] := by
  unfold extract_answer
  rw [(by decide : removeKi ['\\', 'b', 'o', 'x', 'e', 'd', '{', '{', 'a',
        '}', '+', '{', 'b', '}', '}']
        = ['\\', 'b', 'o', 'x', 'e', 'd', '{', '{', 'a', '}', '+', '{', 'b',
           '}', '}'])]
  unfold extractRestCore
  rw [if_neg (by decide), if_neg (by decide), if_pos (by decide)]
  rw [(by decide : afterLastSub (("boxed").data) ['\\', 'b', 'o', 'x', 'e',
        'd', '{', '{', 'a', '}', '+', '{', 'b', '}', '}']
        = '{' :: ['{', 'a', '}', '+', '{', 'b', '}', '}'])]
  change String.mk (extractPost (braceScan 1 [] ['{', 'a', '}', '+', '{',
    'b', '}', '}']) "math") = String.mk ['{', '}', '+', '{', 'b', '}']
  rw [(by decide : braceScan 1 [] ['{', 'a', '}', '+', '{', 'b', '}', '}']
        = ['{', 'a', '}', '+', '{', 'b', '}'])]
  change String.mk (stripStringCore (extractClean ['{', 'a', '}', '+', '{',
    'b', '}'] "math") false) = String.mk ['{', '}', '+', '{', 'b', '}']
  rw [(by decide : extractClean ['{', 'a', '}', '+', '{', 'b', '}'] "math"
        = ['{', 'a', '}', '+', '{', 'b', '}'])]
  rw [stripFF_Ta]

/-- Concrete extraction fact: on the Cyrillic-marker input the initial
removal produces a fresh marker occurrence, so the number fallback sees only
the two separated digits and keeps the last one. -/
theorem extractEval_ki :
    extract_answer "1ккии2" "math" true = "2" := by
  unfold extract_answer
  rw [(by decide : removeKi (("1ккии2").data) = ['1', 'к', 'и', '2'])]
  unfold extractRestCore
  rw [if_neg (by decide), if_neg (by decide), if_neg (by decide),
      if_neg (by decide), if_neg (by decide), if_neg (by decide),
      if_pos (by decide)]
  rw [(by decide : (findNumbers (pyReplace ['1', 'к', 'и', '2'] [','] [])).getLastD []
        = ['2'])]
  change String.mk (stripStringCore (extractClean ['2'] "math") false) = "2"
  rw [(by decide : extractClean ['2'] "math" = ['2'])]
  rw [stripFF_Ti]

/-- Concrete extraction fact: on the once-removed input the second removal
deletes the leftover marker, so the number fallback sees the joined number
twelve. -/
theorem extractEval_ki2 :
    extract_answer (String.mk ['1', 'к', 'и', '2']) "math" true = "12" := by
  unfold extract_answer
  rw [(by decide : removeKi ((String.mk ['1', 'к', 'и', '2']).data)
        = ['1', '2'])]
  unfold extractRestCore
  rw [if_neg (by decide), if_neg (by decide), if_neg (by decide),
      if_neg (by decide), if_neg (by decide), if_neg (by decide),
      if_pos (by decide)]
  rw [(by decide : (findNumbers (pyReplace ['1', '2'] [','] [])).getLastD []
        = ['1', '2'])]
  change String.mk (stripStringCore (extractClean ['1', '2'] "math") false) = "12"
  rw [(by decide : extractClean ['1', '2'] "math" = ['1', '2'])]
  rw [stripFF_Tj]

/-- Every match collected by the choice-letter scanner is one of the five
standalone letters. -/
theorem findLettersGo_mem :
    ∀ (s : List Char) (prev : Option Char) (l : List Char),
      l ∈ findLettersGo prev s →
      l = ['A'] ∨ l = ['B'] ∨ l = ['C'] ∨ l = ['D'] ∨ l = ['E'] := by
  intro s
  induction s with
  | nil =>
    intro prev l h
    simp [findLettersGo] at h
  | cons c cs ih =>
    intro prev l h
    unfold findLettersGo at h
    by_cases hc :
        ((c = 'A' || c = 'B' || c = 'C' || c = 'D' || c = 'E')
          && leftBoundaryOK prev && rightBoundaryOK cs) = true
    · rw [if_pos hc] at h
      rcases List.mem_cons.mp h with hl | hl
      · have hc5 : (c = 'A' || c = 'B' || c = 'C' || c = 'D' || c = 'E') = true := by
          simp only [Bool.and_eq_true] at hc
          exact hc.1.1
        subst hl
        simp only [Bool.or_eq_true, decide_eq_true_eq] at hc5
        rcases hc5 with ((((h5 | h5) | h5) | h5) | h5) <;> subst h5 <;> simp
      · exact ih (some c) l hl
    · rw [if_neg hc] at h
      exact ih (some c) l h

/-- The last element with default of a nonempty list is a member. -/
theorem getLastD_mem {α : Type} (d : α) :
    ∀ (l : List α), l ≠ [] → l.getLastD d ∈ l := by
  intro l
  induction l with
  | nil => intro h; exact absurd rfl h
  | cons a rest ih =>
    intro _
    cases rest with
    | nil => simp [List.getLastD]
    | cons b t =>
      have := ih (by simp)
      simp only [List.getLastD] at this ⊢
      exact List.mem_cons_of_mem a this

/-- The final punctuation strips of choice_answer_clean leave a standalone
choice letter unchanged. -/
theorem rstrip_letter (l : List Char)
    (h : l = ['A'] ∨ l = ['B'] ∨ l = ['C'] ∨ l = ['D'] ∨ l = ['E']) :
    pyRStripChars ['/'] (pyRStripChars ['.'] l) = l := by
  rcases h with h | h | h | h | h <;> subst h <;> decide

/-- Marker absence in a candidate text: none of the extraction strategies of
extract_answer for the math dataset kind can fire. -/
def noAnswerMarker (t : List Char) : Prop :=
  containsSub (("boxed").data) t = false ∧
  containsSub (("he answer is").data) t = false ∧
  containsSub (("final answer is").data) t = false ∧
  containsSub (("final answer is $").data) t = false ∧
  containsSub (("答案是").data) t = false

instance (t : List Char) : Decidable (noAnswerMarker t) := by
  unfold noAnswerMarker
  infer_instance

/-- With no marker present and the number fallback disabled, extraction for
the math dataset kind produces the empty string. -/
theorem extractRestCore_noMarker (t : List Char) (h : noAnswerMarker t) :
    extractRestCore t "math" false = [] := by
  obtain ⟨h1, h2, h3, h4, h5⟩ := h
  unfold extractRestCore
  rw [if_neg (by decide), if_neg (by simp [h4]), if_neg (by simp [h1]),
      if_neg (by simp [h2]), if_neg (by simp [h3]), if_neg (by simp [h5]),
      if_neg (by simp)]
  change stripStringCore (extractClean [] "math") false = []
  rw [(by decide : extractClean [] "math" = ([] : List Char))]
  exact stripStringCore_nil false

/-- The bracket-stripping condition of strip_string never holds, because the
whole string including its first bracket would have to be alphanumeric. -/
theorem stripEnclosing_id (s : List Char) : stripEnclosing s = s := by
  unfold stripEnclosing
  have key : ∀ (br : Char), Char.isAlphanum br = false → ∀ (en : Char),
      (startsWithChar br s && endsWithChar en s && pyIsAlnumStr s) = false := by
    intro br hbr en
    cases s with
    | nil => rfl
    | cons c cs =>
      by_cases hc : c = br
      · subst hc
        simp [pyIsAlnumStr, hbr]
      · simp [startsWithChar, hc]
  rw [if_neg (by simp [key '{' (by decide) '}', key '(' (by decide) ')',
    key '[' (by decide) ']'])]

/-- C1 counterexample: for the nested-brace boxed input and the
non-multiple-choice dataset kind math, extract_answer does not return the
brace content verbatim, because the unit pass deletes the standalone a. -/
theorem claim1_counterexample :
    extract_answer
      (String.mk ['\\', 'b', 'o', 'x', 'e', 'd', '{', '{', 'a', '}', '+',
                  '{', 'b', '}', '}']) "math" true
      ≠ String.mk ['{', 'a', '}', '+', '{', 'b', '}'] := by
  rw [extractEval_braces_math]
  decide

/-- C1 (amended): the brace-depth scan itself preserves the nested braces
verbatim, and extract_answer returns the content verbatim exactly for the
skip-unit dataset kinds (minerva_math, carp_en); for the kind math the unit
pass deletes the standalone letter a, giving the brace content with the a
removed. -/
theorem claim1_amended :
    braceScan 1 [] ['{', 'a', '}', '+', '{', 'b', '}', '}']
      = ['{', 'a', '}', '+', '{', 'b', '}']
    ∧ extract_answer
        (String.mk ['\\', 'b', 'o', 'x', 'e', 'd', '{', '{', 'a', '}', '+',
                    '{', 'b', '}', '}']) "minerva_math" true
        = String.mk ['{', 'a', '}', '+', '{', 'b', '}']
    ∧ extract_answer
        (String.mk ['\\', 'b', 'o', 'x', 'e', 'd', '{', '{', 'a', '}', '+',
                    '{', 'b', '}', '}']) "carp_en" true
        = String.mk ['{', 'a', '}', '+', '{', 'b', '}']
    ∧ extract_answer
        (String.mk ['\\', 'b', 'o', 'x', 'e', 'd', '{', '{', 'a', '}', '+',
                    '{', 'b', '}', '}']) "math" true
        = String.mk ['{', '}', '+', '{', 'b', '}'] :=
  ⟨by decide, by decide, by decide, extractEval_braces_math⟩

/-- C2 counterexample: normalization is not idempotent on every string; on
the input aandnd one application yields the literal and, whose second
normalization deletes it entirely. -/
theorem claim2_counterexample :
    strip_string (strip_string "aandnd" false) false
      ≠ strip_string "aandnd" false := by
  rw [stripS_aandnd, stripS_and]
  decide

/-- C2 (amended): normalization is idempotent on the specification's own
documented normalization examples for both values of the skip-unit flag,
but not on every string (see the counterexample). -/
theorem claim2_amended :
    (∀ u : Bool, strip_string (strip_string "3.00" u) u = strip_string "3.00" u)
    ∧ (∀ u : Bool, strip_string (strip_string "3.10" u) u = strip_string "3.10" u)
    ∧ (∀ u : Bool,
        strip_string (strip_string "10 feet" u) u = strip_string "10 feet" u) := by
  refine ⟨fun u => ?_, fun u => ?_, fun u => ?_⟩
  · cases u with
    | false =>
      rw [stripS_300]
      exact stripS_3
    | true => decide
  · cases u with
    | false =>
      rw [stripS_310]
      exact stripS_310
    | true => decide
  · cases u with
    | false =>
      rw [stripS_10feet]
      exact stripS_10
    | true => decide

/-- C3: the enclosing-bracket stripping step never fires, because the code
tests isalnum() on the whole string with its brackets still attached, which
is unsatisfiable; in particular a stage string made of a bracketed
alphanumeric passes through normalization unchanged, contradicting both the
specification and the source's own comment on lines 278 to 290. -/
theorem claim3_bug :
    (∀ s : List Char, stripEnclosing s = s)
    ∧ strip_string (String.mk ['{', 'a', '1', '}']) false
        = String.mk ['{', 'a', '1', '}'] :=
  ⟨stripEnclosing_id, stripS_a1⟩

/-- C4 counterexample: normalization does not trim the trailing zero of
3.10, because both trailing-zero regexes require the whole fractional part
to consist of zeros. -/
theorem claim4_counterexample : strip_string "3.10" false ≠ "3.1" := by
  rw [stripS_310]
  decide

/-- C4 (amended): normalization removes a decimal point followed only by
zeros, mapping 3.00 to 3, but leaves 3.10 unchanged rather than trimming it
to 3.1. -/
theorem claim4_amended :
    (∀ u : Bool, strip_string "3.00" u = "3")
    ∧ (∀ u : Bool, strip_string "3.10" u = "3.10") := by
  constructor
  · intro u
    cases u with
    | false => exact stripS_300
    | true => decide
  · intro u
    cases u with
    | false => exact stripS_310
    | true => decide

/-- C5: the equivalence checker promotes each non-list parsed operand to a
singleton candidate set, succeeds exactly when some pairing across the
Cartesian product compares equal under the exception-absorbing per-pair
comparison, a raising comparison counts as unequal for that pairing only,
and a raising parse of either operand makes the whole comparison false when
the fast path does not apply. -/
theorem claim5_equivalence :
    (∀ v : SymVal, isVlist v = false → asCandidates v = [v])
    ∧ (∀ (eqO : Nat → Nat → Except Unit Bool) (pg pt : SymVal),
        verify_with_sympy eqO pg pt = true
          ↔ ∃ g ∈ asCandidates pg, ∃ t ∈ asCandidates pt,
              safe_compare eqO g t = true)
    ∧ (∀ (eqO : Nat → Nat → Except Unit Bool) (a b : Nat),
        eqO a b = Except.error () →
        safe_compare eqO (SymVal.sym a) (SymVal.sym b) = false)
    ∧ (∀ (parseO : String → Except Unit SymVal)
        (eqO : Nat → Nat → Except Unit Bool) (gold target : String),
        gold ≠ target →
        (parseO gold = Except.error () ∨ parseO target = Except.error ()) →
        hf_verify parseO eqO gold target = false) := by
  refine ⟨?_, ?_, ?_, ?_⟩
  · intro v h
    cases v <;> simp_all [isVlist, asCandidates]
  · intro eqO pg pt
    unfold verify_with_sympy pyProduct
    simp [List.any_eq_true, List.mem_flatMap, List.mem_map]
  · intro eqO a b h
    simp [safe_compare, compare_single, h]
  · intro parseO eqO gold target hne hor
    unfold hf_verify
    rw [if_neg hne]
    rcases hor with h | h
    · cases hpt : parseO target with
      | error e => rfl
      | ok pt => rw [h]
    · rw [h]

/-- C5 witness: with a parser oracle that always raises and distinct
operands, the comparison is false even for an accepting sympy oracle. -/
theorem claim5_witness :
    hf_verify (fun _ => Except.error ()) (fun _ _ => Except.ok true)
      "a" "b" = false :=
  claim5_equivalence.2.2.2 (fun _ => Except.error ())
    (fun _ _ => Except.ok true) "a" "b" (by decide) (Or.inl rfl)

/-- C6: when the correct boxed label lies entirely before the final 300
characters of the stop-token-trimmed, assistant-marker-truncated response
and no extraction marker survives in those final 300 characters, the reward
is 0 regardless of the external oracles, even though the answer is present
verbatim. -/
theorem claim6_truncation (parseO : String → Except Unit SymVal)
    (eqO : Nat → Nat → Except Unit Bool) (response label : String)
    (hfar : containsSub (("\\boxed").data ++ '{' :: label.data ++ ['}'])
        ((trimmedOutput response).take
          ((trimmedOutput response).length - 300)) = true)
    (hnone : noAnswerMarker (removeKi (lastN 300 (trimmedOutput response)))) :
    get_dapo_math_reward parseO eqO response label = 0 := by
  have hext : extract_solution response = "" := by
    show String.mk (extractRestCore
      (removeKi (lastN 300 (trimmedOutput response))) "math" false) = ""
    rw [extractRestCore_noMarker _ hnone]
  unfold get_dapo_math_reward
  by_cases hl : label = ""
  · rw [if_pos hl]
  · rw [if_neg hl, hext]
    simp

/-- C6 witness: a response holding the correct boxed answer followed by 301
filler characters is scored 0 even under accepting oracles. -/
theorem claim6_witness :
    get_dapo_math_reward (fun _ => Except.ok (SymVal.sym 0))
      (fun _ _ => Except.ok true)
      (String.mk (['\\', 'b', 'o', 'x', 'e', 'd', '{', '7', '}']
        ++ List.replicate 301 'x')) "7" = 0 :=
  claim6_truncation (fun _ => Except.ok (SymVal.sym 0))
    (fun _ _ => Except.ok true)
    (String.mk (['\\', 'b', 'o', 'x', 'e', 'd', '{', '7', '}']
      ++ List.replicate 301 'x')) "7" (by decide) (by decide)

/-- C7: the reward is 0 for every pair of oracles whenever the label is
falsy or the extracted candidate is empty, so the equivalence checker is
never consulted in these cases and no exception can escape. -/
theorem claim7_guards (parseO : String → Except Unit SymVal)
    (eqO : Nat → Nat → Except Unit Bool) (response label : String)
    (h : label = "" ∨ extract_solution response = "") :
    get_dapo_math_reward parseO eqO response label = 0 := by
  unfold get_dapo_math_reward
  rcases h with h | h
  · rw [if_pos h]
  · by_cases hl : label = ""
    · rw [if_pos hl]
    · rw [if_neg hl, h]
      simp

/-- C7 witness: the empty label yields reward 0 under accepting oracles. -/
theorem claim7_witness :
    get_dapo_math_reward (fun _ => Except.ok (SymVal.sym 0))
      (fun _ _ => Except.ok true) "hello" "" = 0 :=
  claim7_guards (fun _ => Except.ok (SymVal.sym 0))
    (fun _ _ => Except.ok true) "hello" "" (Or.inl rfl)

/-- C8: choice_answer_clean is total by construction, and whenever the
standalone-letter scan finds matches it returns the first match when the
trigger-phrase split produced more than one segment and the last match
otherwise. -/
theorem claim8_choice (pred : String) (h : choiceLetters pred.data ≠ []) :
    choice_answer_clean pred
      = String.mk (if choiceAnswerFlag pred.data
          then (choiceLetters pred.data).headD []
          else (choiceLetters pred.data).getLastD []) := by
  unfold choice_answer_clean choiceAnswerCleanCore
  cases htmp : choiceLetters pred.data with
  | nil => exact absurd htmp h
  | cons a rest =>
    show String.mk (pyRStripChars ['/'] (pyRStripChars ['.']
      (if choiceAnswerFlag pred.data then (a :: rest).headD []
       else (a :: rest).getLastD []))) = _
    have hmem : (if choiceAnswerFlag pred.data then (a :: rest).headD []
        else (a :: rest).getLastD []) ∈ (a :: rest) := by
      by_cases hf : choiceAnswerFlag pred.data
      · rw [if_pos hf]
        exact List.mem_cons_self a rest
      · rw [if_neg hf]
        exact getLastD_mem [] (a :: rest) (by simp)
    have hmem2 : (if choiceAnswerFlag pred.data then (a :: rest).headD []
        else (a :: rest).getLastD [])
        ∈ findLettersGo none (pyUpper (choiceCleaned pred.data)) := by
      rw [show findLettersGo none (pyUpper (choiceCleaned pred.data))
            = a :: rest from htmp]
      exact hmem
    have hchar := findLettersGo_mem (pyUpper (choiceCleaned pred.data)) none _
      hmem2
    rw [rstrip_letter _ hchar]

/-- C8 witness: a single trigger phrase followed by the letter B is cleaned
to B, the first letter found after the split. -/
theorem claim8_witness : choice_answer_clean "The answer is B." = "B" := by
  rw [claim8_choice "The answer is B." (by decide)]
  decide

/-- C9 counterexample: a decoded body whose result field is an empty list
makes local_search raise an index error instead of returning the empty
list, because the result-shape parsing happens outside the try block. -/
theorem claim9_counterexample :
    local_search (TransportOutcome.success
      (PyVal.dictV [("result", PyVal.listV [])]))
      = Except.error PyErr.indexError :=
  rfl

/-- C9 (amended): local_search returns the empty list on every transport
failure, and formats a well-shaped body into the documented context list;
but a parse failure after the transport phase raises (see the
counterexample). -/
theorem claim9_amended :
    local_search TransportOutcome.failure = Except.ok []
    ∧ local_search (TransportOutcome.success (PyVal.dictV [("result",
        PyVal.listV [PyVal.listV [PyVal.dictV [("id", PyVal.strV "1"),
          ("contents", PyVal.strV "\"T\"\nbody text")]]])]))
      = Except.ok [PyVal.dictV [("document", PyVal.dictV [("contents",
          PyVal.strV "\"T\"\nbody text")])]] :=
  ⟨rfl, rfl⟩

/-- C10 counterexample: extraction is not invariant under removing the
two-character marker, because a single removal pass can create a fresh
occurrence that the internal removal of the second call also deletes. -/
theorem claim10_counterexample :
    extract_answer "1ккии2" "math" true
      ≠ extract_answer (String.mk (removeKi (("1ккии2").data))) "math" true := by
  rw [extractEval_ki,
      (by decide : String.mk (removeKi (("1ккии2").data))
        = String.mk ['1', 'к', 'и', '2']),
      extractEval_ki2]
  decide

/-- C10 (amended): extract_answer first deletes the marker in one
left-to-right pass, so it agrees with extraction on the once-removed text
whenever that text contains no further marker occurrence. -/
theorem claim10_equation (s d : String) (u : Bool)
    (h : containsSub (("ки").data) (removeKi s.data) = false) :
    extract_answer s d u
      = extract_answer (String.mk (removeKi s.data)) d u := by
  unfold extract_answer
  rw [removeKi_of_not_contains ((String.mk (removeKi s.data)).data) h]

/-- C10 witness: on a marker-free input the equation holds concretely. -/
theorem claim10_witness :
    containsSub (("ки").data) (removeKi (("abc").data)) = false
    ∧ extract_answer "abc" "math" true
        = extract_answer (String.mk (removeKi (("abc").data))) "math" true :=
  ⟨by decide, claim10_equation "abc" "math" true (by decide)⟩

end Slime
